import Mathlib

/-!
# The healthcare front end: authentication gate, routes, views and services

A shallow embedding of

* `src/components/auth/ProtectedRoute.jsx` (the route guard),
* `src/context/AuthContext.jsx` (the `AuthProvider`: startup effect, `login`, `logout`),
* `src/services/authService.js` (`authService.login`, `authService.logout`),
* `src/App.js` (the route table) and `src/components/auth/Login.jsx` (`handleSubmit`),
* `src/components/common/Sidebar.jsx` (`getMenuItems`, `isActive`),
* the fetch functions and the mutation handlers of the views under
  `src/components/admin`, `src/components/doctor` and `src/components/patient`,
  with `calculateAge`, `applyFilters` and the split of the appointments,
* the seven service modules under `src/services`,

together with the fragment of the JavaScript platform these files rely on:
JavaScript values as they come out of `JSON.parse`, truthiness, property
lookup, `JSON.stringify`, `JSON.parse` and `localStorage`.
-/

namespace HealthCare

/-! ## JavaScript values -/

/-- The JavaScript values that `JSON.parse` can produce.  Numbers are modelled
as integers.  An object is the list of its own properties in insertion order;
when a key occurs twice the later occurrence is the one that is read, as in
`JSON.parse`. -/
inductive JSValue where
  | null : JSValue
  | bool (b : Bool) : JSValue
  | number (n : Int) : JSValue
  | string (s : String) : JSValue
  | array (items : List JSValue) : JSValue
  | object (fields : List (String × JSValue)) : JSValue
  deriving Inhabited

/-- Reading a key from a property list; `none` stands for `undefined`.
A later occurrence of the key shadows an earlier one. -/
def lookup (k : String) : List (String × JSValue) → Option JSValue
  | [] => none
  | (k', v) :: rest =>
    match lookup k rest with
    | some w => some w
    | none => if k' = k then some v else none

/-- Property access `v.k` on a value that is neither `null` nor `undefined`,
for a key that no prototype provides (`role`, `success`, `message`): an
object answers with its own property, anything else with `undefined`. -/
def JSValue.get (v : JSValue) (k : String) : Option JSValue :=
  match v with
  | .object fields => lookup k fields
  | _ => none

/-- JavaScript truthiness (`ToBoolean`) of a value. -/
def JSValue.truthy : JSValue → Bool
  | .null => false
  | .bool b => b
  | .number n => n != 0
  | .string s => s != ""
  | .array _ => true
  | .object _ => true

/-- Truthiness of the result of a property access, where `none` is `undefined`. -/
def truthy? : Option JSValue → Bool
  | none => false
  | some v => v.truthy

/-- The errors thrown by the modelled code. -/
inductive JSError where
  | syntaxError : JSError
  | typeError : JSError
  | error (message : String) : JSError
  deriving DecidableEq, Repr

/-- Property access that throws: reading a property of `null` is a
`TypeError`, any other value answers as `JSValue.get`. -/
def getProp (v : JSValue) (k : String) : Except JSError (Option JSValue) :=
  match v with
  | .null => .error .typeError
  | _ => .ok (v.get k)

/-! ## JSON text -/

namespace JSON

/-- The double quote character. -/
def dquote : Char := Char.ofNat 34

/-- The reverse solidus (backslash) character. -/
def backslash : Char := Char.ofNat 92

/-- Lowercase hexadecimal digit of a number below 16. -/
def hexChar (n : Nat) : Char :=
  if n < 10 then Char.ofNat (48 + n) else Char.ofNat (87 + n)

/-- The step of `QuoteJSONString` on one character: the two-character escapes, a
`u`-escape for the other control characters, the character itself otherwise. -/
def quoteChar (c : Char) : List Char :=
  if c = dquote then [backslash, dquote]
  else if c = backslash then [backslash, backslash]
  else if c = Char.ofNat 8 then [backslash, 'b']
  else if c = Char.ofNat 12 then [backslash, 'f']
  else if c = Char.ofNat 10 then [backslash, 'n']
  else if c = Char.ofNat 13 then [backslash, 'r']
  else if c = Char.ofNat 9 then [backslash, 't']
  else if c.toNat < 32 then
    [backslash, 'u', '0', '0', hexChar (c.toNat / 16), hexChar (c.toNat % 16)]
  else [c]

/-- The body of a quoted string, without the surrounding quotes. -/
def quoteBody : List Char → List Char
  | [] => []
  | c :: cs => quoteChar c ++ quoteBody cs

/-- A quoted JSON string. -/
def quote (s : String) : List Char :=
  dquote :: (quoteBody s.data ++ [dquote])

/-- Decimal digits of a natural number, most significant first. -/
def natDigits : Nat → Nat → List Char
  | 0, _ => []
  | fuel + 1, n =>
    if n < 10 then [Char.ofNat (48 + n)]
    else natDigits fuel (n / 10) ++ [Char.ofNat (48 + n % 10)]

/-- Decimal rendering of a natural number. -/
def renderNat (n : Nat) : List Char := natDigits (n + 1) n

/-- Decimal rendering of an integer. -/
def renderInt : Int → List Char
  | .ofNat n => renderNat n
  | .negSucc n => '-' :: renderNat (n + 1)

mutual
/-- The text `JSON.stringify` produces for a value (no indentation). -/
def render : JSValue → List Char
  | .null => ['n', 'u', 'l', 'l']
  | .bool true => ['t', 'r', 'u', 'e']
  | .bool false => ['f', 'a', 'l', 's', 'e']
  | .number n => renderInt n
  | .string s => quote s
  | .array items => '[' :: (renderItems items ++ [']'])
  | .object fields => '{' :: (renderFields fields ++ ['}'])
/-- The elements of an array, separated by commas. -/
def renderItems : List JSValue → List Char
  | [] => []
  | [v] => render v
  | v :: w :: vs => render v ++ ',' :: renderItems (w :: vs)
/-- The members of an object, separated by commas. -/
def renderFields : List (String × JSValue) → List Char
  | [] => []
  | [(k, v)] => quote k ++ ':' :: render v
  | (k, v) :: f :: fs => quote k ++ ':' :: (render v ++ ',' :: renderFields (f :: fs))
end

/-- The function `JSON.stringify`, applied to a value. -/
def stringify (v : JSValue) : String := String.mk (render v)

/-- JSON white space. -/
def isWs (c : Char) : Bool :=
  c = Char.ofNat 32 || c = Char.ofNat 9 || c = Char.ofNat 10 || c = Char.ofNat 13

/-- Drop leading white space. -/
def skipWs : List Char → List Char
  | [] => []
  | c :: cs => if isWs c then skipWs cs else c :: cs

/-- Value of a hexadecimal digit. -/
def hexVal (c : Char) : Option Nat :=
  let n := c.toNat
  if 48 ≤ n ∧ n ≤ 57 then some (n - 48)
  else if 97 ≤ n ∧ n ≤ 102 then some (n - 87)
  else if 65 ≤ n ∧ n ≤ 70 then some (n - 55)
  else none

/-- The code unit denoted by the four hexadecimal digits of a `u`-escape. -/
def hex4 (a b c d : Char) : Option Nat :=
  match hexVal a, hexVal b, hexVal c, hexVal d with
  | some x, some y, some z, some w => some (((x * 16 + y) * 16 + z) * 16 + w)
  | _, _, _, _ => none

/-- The character a two-character escape stands for. -/
def unescape (e : Char) : Option Char :=
  if e = dquote then some dquote
  else if e = backslash then some backslash
  else if e = '/' then some '/'
  else if e = 'b' then some (Char.ofNat 8)
  else if e = 'f' then some (Char.ofNat 12)
  else if e = 'n' then some (Char.ofNat 10)
  else if e = 'r' then some (Char.ofNat 13)
  else if e = 't' then some (Char.ofNat 9)
  else none

/-- The characters of a string up to its closing quote, and the text after
it.  A raw control character, an unknown escape and an unterminated string
are syntax errors.  A `u`-escape of a surrogate code unit is rejected as
well: such strings are outside the modelled values. -/
def parseStringBody : List Char → Option (List Char × List Char)
  | [] => none
  | c :: cs =>
    if c = dquote then some ([], cs)
    else if c = backslash then
      match cs with
      | [] => none
      | e :: cs' =>
        if e = 'u' then
          match cs' with
          | a :: b :: x :: d :: r =>
            match hex4 a b x d with
            | none => none
            | some n =>
              if 55296 ≤ n ∧ n ≤ 57343 then none
              else
                match parseStringBody r with
                | none => none
                | some (s, r') => some (Char.ofNat n :: s, r')
          | _ => none
        else
          match unescape e with
          | none => none
          | some u =>
            match parseStringBody cs' with
            | none => none
            | some (s, r') => some (u :: s, r')
    else if c.toNat < 32 then none
    else
      match parseStringBody cs with
      | none => none
      | some (s, r') => some (c :: s, r')

/-- Is the character a decimal digit? -/
def isDigit (c : Char) : Bool := decide (48 ≤ c.toNat) && decide (c.toNat ≤ 57)

/-- The longest prefix of digits, and the text after it. -/
def takeDigits : List Char → List Char × List Char
  | [] => ([], [])
  | c :: cs =>
    if isDigit c then ((takeDigits cs).1.cons c, (takeDigits cs).2)
    else ([], c :: cs)

/-- The number a list of digits denotes. -/
def digitsVal (ds : List Char) : Nat :=
  ds.foldl (fun acc c => acc * 10 + (c.toNat - 48)) 0

/-- An unsigned integer literal: digits without a superfluous leading zero.
A fraction or exponent part is rejected: only integers are modelled. -/
def parseNat (cs : List Char) : Option (Nat × List Char) :=
  match takeDigits cs with
  | ([], _) => none
  | (d :: ds, rest) =>
    if d = '0' ∧ ds ≠ [] then none
    else
      match rest with
      | c :: _ =>
        if c = '.' ∨ c = 'e' ∨ c = 'E' then none
        else some (digitsVal (d :: ds), rest)
      | [] => some (digitsVal (d :: ds), rest)

mutual
/-- One JSON value at the head of the text, and the text after it. -/
def parseValue : Nat → List Char → Option (JSValue × List Char)
  | 0, _ => none
  | fuel + 1, cs =>
    match skipWs cs with
    | [] => none
    | c :: rest =>
      if c = '{' then
        match skipWs rest with
        | [] => none
        | d :: rest' =>
          if d = '}' then some (.object [], rest')
          else
            match parseMembers fuel (d :: rest') with
            | none => none
            | some (fs, r) => some (.object fs, r)
      else if c = '[' then
        match skipWs rest with
        | [] => none
        | d :: rest' =>
          if d = ']' then some (.array [], rest')
          else
            match parseElements fuel (d :: rest') with
            | none => none
            | some (vs, r) => some (.array vs, r)
      else if c = dquote then
        match parseStringBody rest with
        | none => none
        | some (s, r) => some (.string (String.mk s), r)
      else if c = 't' then
        match rest with
        | 'r' :: 'u' :: 'e' :: r => some (.bool true, r)
        | _ => none
      else if c = 'f' then
        match rest with
        | 'a' :: 'l' :: 's' :: 'e' :: r => some (.bool false, r)
        | _ => none
      else if c = 'n' then
        match rest with
        | 'u' :: 'l' :: 'l' :: r => some (.null, r)
        | _ => none
      else if c = '-' then
        match parseNat rest with
        | none => none
        | some (n, r) => some (.number (-(n : Int)), r)
      else
        match parseNat (c :: rest) with
        | none => none
        | some (n, r) => some (.number (n : Int), r)
/-- The elements of a non-empty array up to its closing bracket. -/
def parseElements : Nat → List Char → Option (List JSValue × List Char)
  | 0, _ => none
  | fuel + 1, cs =>
    match parseValue fuel cs with
    | none => none
    | some (v, r) =>
      match skipWs r with
      | [] => none
      | c :: r' =>
        if c = ',' then
          match parseElements fuel r' with
          | none => none
          | some (vs, r'') => some (v :: vs, r'')
        else if c = ']' then some ([v], r')
        else none
/-- The members of a non-empty object up to its closing brace. -/
def parseMembers : Nat → List Char → Option (List (String × JSValue) × List Char)
  | 0, _ => none
  | fuel + 1, cs =>
    match skipWs cs with
    | [] => none
    | q :: cs1 =>
      if q = dquote then
        match parseStringBody cs1 with
        | none => none
        | some (k, cs2) =>
          match skipWs cs2 with
          | [] => none
          | colon :: cs3 =>
            if colon = ':' then
              match parseValue fuel cs3 with
              | none => none
              | some (v, r) =>
                match skipWs r with
                | [] => none
                | c :: r' =>
                  if c = ',' then
                    match parseMembers fuel r' with
                    | none => none
                    | some (fs, r'') => some ((String.mk k, v) :: fs, r'')
                  else if c = '}' then some ([(String.mk k, v)], r')
                  else none
            else none
      else none
end

/-- The function `JSON.parse`: the value of the text, or `none` for the `SyntaxError`
it throws.  Every call of the parser consumes a character, so the length of
the text bounds the recursion. -/
def parse (s : String) : Option JSValue :=
  match parseValue (s.length + 1) s.data with
  | none => none
  | some (v, rest) =>
    match skipWs rest with
    | [] => some v
    | _ :: _ => none

/-- What may follow a value inside a JSON text: nothing, or a separator. -/
def Delim (rest : List Char) : Prop :=
  ∀ c ∈ rest.head?, c = ',' ∨ c = ']' ∨ c = '}'

/-- Reading back one quoted character. -/
def consResult (c : Char) : Option (List Char × List Char) → Option (List Char × List Char)
  | none => none
  | some (s, r) => some (c :: s, r)

end JSON

/-! ## `localStorage` -/

/-- The browser store `localStorage`: a map from keys to strings.  A write
always succeeds: storage quota and disabled storage are not modelled. -/
abbrev Storage := String → Option String

/-- Reading a key: `localStorage.getItem(k)`, where `none` is `null`. -/
def Storage.getItem (s : Storage) (k : String) : Option String := s k

/-- Writing a key: `localStorage.setItem(k, v)`. -/
def Storage.setItem (s : Storage) (k v : String) : Storage :=
  fun k' => if k' = k then some v else s k'

/-- Removing a key: `localStorage.removeItem(k)`. -/
def Storage.removeItem (s : Storage) (k : String) : Storage :=
  fun k' => if k' = k then none else s k'

/-- The key under which `AuthContext.jsx` keeps the signed-in user. -/
def storageKey : String := "healthcare_user"

/-! ## The route guard (`ProtectedRoute.jsx`) -/

/-- What a render of `ProtectedRoute` returns. -/
inductive Element where
  | loading : Element
  | navigate (target : String) : Element
  | children : Element
  deriving DecidableEq, Repr

/-- The test `allowedRoles.includes(user.role)`: the array holds string
literals, so it succeeds exactly when the role is a string equal to one of them. -/
def includes (allowedRoles : List String) (role : Option JSValue) : Bool :=
  match role with
  | some (.string r) => allowedRoles.contains r
  | _ => false

/-- The `switch (user.role)` of `ProtectedRoute`: the redirect target. -/
def roleRedirect (role : Option JSValue) : String :=
  match role with
  | some (.string r) =>
    if r = "ADMIN" then "/admin/dashboard"
    else if r = "DOCTOR" then "/doctor/dashboard"
    else if r = "PATIENT" then "/patient/dashboard"
    else "/login"
  | _ => "/login"

/-- The component `ProtectedRoute({ children, allowedRoles })`, evaluated
against the `user` and `loading` values of the auth context. -/
def ProtectedRoute (allowedRoles : List String) (user : JSValue) (loading : Bool) : Element :=
  if loading then
    .loading
  else if !user.truthy then
    .navigate "/login"
  else if decide (allowedRoles.length > 0) && !includes allowedRoles (user.get "role") then
    .navigate (roleRedirect (user.get "role"))
  else
    .children

/-! ## The auth context (`AuthContext.jsx`, `authService.js`) -/

/-- How the promise of `apiService.post` settles.  The module `./api` is not
part of the sources, so its outcome is an input of the model. -/
inductive Settled where
  | resolved (response : JSValue) : Settled
  | rejected : Settled

/-- The state the `AuthProvider` works on: its two `useState` cells and the
browser store. -/
structure AuthState where
  /-- The cell `user`, initially `null`. -/
  user : JSValue
  /-- The cell `loading`, initially `true`. -/
  loading : Bool
  /-- The browser store. -/
  localStorage : Storage

/-- The state of a fresh process over a given store: `useState(null)` and
`useState(true)`. -/
def AuthState.fresh (store : Storage) : AuthState := ⟨.null, true, store⟩

/-- What `AuthProvider.login` returns: `{ success, message }`, where a
`message` of `none` is `undefined`. -/
structure LoginResult where
  /-- The field `success`. -/
  success : Bool
  /-- The field `message`. -/
  message : Option JSValue

/-- The message of the `catch` branch of `AuthProvider.login`. -/
def loginFailedMessage : String := "Login failed. Please try again."

/-- The function `authService.login`: the response of the POST, or a fresh
`Error('Login failed')` when the POST fails. -/
def authService.login (post : Settled) : Except JSError JSValue :=
  match post with
  | .resolved response => .ok response
  | .rejected => .error (.error "Login failed")

/-- The function `authService.logout`: how its promise settles.  A failure of
the POST is caught and logged, so the promise resolves either way. -/
def authService.logout (post : Settled) : Except JSError Unit :=
  match post with
  | .resolved _ => .ok ()
  | .rejected => .ok ()

/-- The startup effect of `AuthProvider`: read the saved user, parse it when
the string is non-empty, then clear `loading`.  A `SyntaxError` of
`JSON.parse` leaves the effect before any cell is written. -/
def AuthProvider.startupEffect (st : AuthState) : Except JSError AuthState :=
  match st.localStorage.getItem storageKey with
  | none => .ok ⟨st.user, false, st.localStorage⟩
  | some savedUser =>
    if savedUser != "" then
      match JSON.parse savedUser with
      | none => .error .syntaxError
      | some v => .ok ⟨v, false, st.localStorage⟩
    else
      .ok ⟨st.user, false, st.localStorage⟩

/-- The function `login` of `AuthProvider`, from the state at the moment the
awaited call settles: the new state and the returned result. -/
def AuthProvider.login (st : AuthState) (post : Settled) : AuthState × LoginResult :=
  match authService.login post with
  | .error _ => (st, ⟨false, some (.string loginFailedMessage)⟩)
  | .ok response =>
    match getProp response "success" with
    | .error _ => (st, ⟨false, some (.string loginFailedMessage)⟩)
    | .ok success =>
      if truthy? success then
        (⟨response, st.loading,
            st.localStorage.setItem storageKey (JSON.stringify response)⟩,
          ⟨true, none⟩)
      else
        (st, ⟨false, response.get "message"⟩)

/-- The function `logout` of `AuthProvider`: the new state, and how the
promise of the call to `authService.logout`, which is not awaited, settles. -/
def AuthProvider.logout (st : AuthState) (post : Settled) : AuthState × Except JSError Unit :=
  (⟨.null, st.loading, st.localStorage.removeItem storageKey⟩, authService.logout post)

/-! ## Payloads used as examples -/

/-- A login response for a doctor. -/
def doctorPayload : JSValue :=
  .object [("success", .bool true), ("userId", .number 7), ("username", .string "doc1"),
    ("firstName", .string "Ada"), ("lastName", .string "Lee"), ("role", .string "DOCTOR")]

/-- An identity of the given role. -/
def identityOf (role : String) : JSValue :=
  .object [("success", .bool true), ("userId", .number 1), ("username", .string "u"),
    ("role", .string role)]

/-- A refused login with a message. -/
def refusedPayload : JSValue :=
  .object [("success", .bool false), ("message", .string "Invalid credentials")]

/-- The empty browser store. -/
def emptyStorage : Storage := fun _ => none

/-! ## The route table (`App.js`) -/

/-- The element a route of `App.js` declares: the login form, a redirect, or
a page wrapped in `ProtectedRoute` with its `allowedRoles`. -/
inductive RouteElement where
  | login : RouteElement
  | redirect (target : String) : RouteElement
  | guarded (allowedRoles : List String) (page : String) : RouteElement
  deriving DecidableEq, Repr

/-- The routes of `App.js`, in the order of declaration. -/
def App.routes : List (String × RouteElement) :=
  [("/login", .login),
   ("/", .redirect "/login"),
   ("/admin/dashboard", .guarded ["ADMIN"] "AdminDashboard"),
   ("/admin/users", .guarded ["ADMIN"] "UserManagement"),
   ("/admin/patients", .guarded ["ADMIN"] "PatientManagement"),
   ("/admin/doctors", .guarded ["ADMIN"] "DoctorManagement"),
   ("/admin/appointments", .guarded ["ADMIN"] "AppointmentManagement"),
   ("/doctor/dashboard", .guarded ["DOCTOR", "ADMIN"] "DoctorDashboard"),
   ("/doctor/appointments", .guarded ["DOCTOR", "ADMIN"] "MyAppointments"),
   ("/doctor/patients", .guarded ["DOCTOR", "ADMIN"] "PatientRecords"),
   ("/patient/dashboard", .guarded ["PATIENT", "ADMIN"] "PatientDashboard"),
   ("/patient/book-appointment", .guarded ["PATIENT", "ADMIN"] "BookAppointment"),
   ("/patient/medical-history", .guarded ["PATIENT", "ADMIN"] "MyMedicalHistory")]

/-- The `allowedRoles` of the guard declared on a path, if the path is a
guarded route. -/
def App.allowedRolesOf (path : String) : Option (List String) :=
  match App.routes.lookup path with
  | some (.guarded allowedRoles _) => some allowedRoles
  | _ => none

/-- The outcome of the guard declared on a path, if the path is a guarded
route. -/
def App.guard (path : String) (user : JSValue) (loading : Bool) : Option Element :=
  match App.allowedRolesOf path with
  | some allowedRoles => some (ProtectedRoute allowedRoles user loading)
  | none => none

/-! ## The login form (`Login.jsx`) -/

/-- The cells of the `Login` component that `handleSubmit` writes, and the
target of its call of `navigate`, if it made one. -/
structure LoginForm where
  /-- The cell `error`, initially the empty string. -/
  error : JSValue
  /-- The cell `loading`, initially `false`. -/
  loading : Bool
  /-- The path `navigate` was last called with. -/
  navigated : Option String

/-- The form as it is mounted: `useState('')` and `useState(false)`. -/
def LoginForm.initial : LoginForm := ⟨.string "", false, none⟩

/-- The attribute `disabled={loading}` of the submit button and of both inputs. -/
def Login.submitDisabled (form : LoginForm) : Bool := form.loading

/-- The `switch (user.role)` of `handleSubmit`: the path to navigate to. -/
def Login.dashboardOf (role : Option JSValue) : String :=
  match role with
  | some (.string r) =>
    if r = "ADMIN" then "/admin/dashboard"
    else if r = "DOCTOR" then "/doctor/dashboard"
    else if r = "PATIENT" then "/patient/dashboard"
    else "/admin/dashboard"
  | _ => "/admin/dashboard"

/-- The expression `JSON.parse(localStorage.getItem('healthcare_user'))` of
`handleSubmit`.  A missing key gives `null`, which `JSON.parse` reads as the
text `null`. -/
def Login.readBack (store : Storage) : Except JSError JSValue :=
  match JSON.parse (match store.getItem storageKey with
      | some s => s
      | none => "null") with
  | some v => .ok v
  | none => .error .syntaxError

/-- The expression `message || fallback`. -/
def orFallback (message : Option JSValue) (fallback : String) : JSValue :=
  match message with
  | some v => if v.truthy then v else .string fallback
  | none => .string fallback

/-- Where a run of `handleSubmit` ends: the auth state, the form, and the
error it threw, if any. -/
structure SubmitOutcome where
  /-- The state of the auth context. -/
  auth : AuthState
  /-- The form. -/
  form : LoginForm
  /-- The error that left the handler, if any. -/
  thrown : Option JSError

/-- The part of `handleSubmit` before the `await`: `setLoading(true)` and
`setError('')`. -/
def Login.submitStart (form : LoginForm) : LoginForm :=
  ⟨.string "", true, form.navigated⟩

/-- The part of `handleSubmit` after the `await`, once the POST has settled. -/
def Login.submitResume (st : AuthState) (form : LoginForm) (post : Settled) : SubmitOutcome :=
  if (AuthProvider.login st post).2.success then
    match Login.readBack (AuthProvider.login st post).1.localStorage with
    | .error e => ⟨(AuthProvider.login st post).1, form, some e⟩
    | .ok user =>
      match getProp user "role" with
      | .error e => ⟨(AuthProvider.login st post).1, form, some e⟩
      | .ok role =>
        ⟨(AuthProvider.login st post).1,
          ⟨form.error, false, some (Login.dashboardOf role)⟩, none⟩
  else
    ⟨(AuthProvider.login st post).1,
      ⟨orFallback (AuthProvider.login st post).2.message
          "Login failed. Please check your credentials.", false, form.navigated⟩,
      none⟩

/-- The handler `handleSubmit` of the login form. -/
def Login.handleSubmit (st : AuthState) (form : LoginForm) (post : Settled) : SubmitOutcome :=
  Login.submitResume st (Login.submitStart form) post

/-! ## The sidebar (`Sidebar.jsx`) -/

/-- An entry of the sidebar menu. -/
structure MenuItem where
  /-- The field `path`. -/
  path : String
  /-- The field `label`. -/
  label : String
  /-- The field `icon`. -/
  icon : String
  deriving DecidableEq, Repr

/-- The expression `user?.role`: `undefined` for a `null` user. -/
def optionalRole (user : JSValue) : Option JSValue :=
  match user with
  | .null => none
  | _ => user.get "role"

/-- The function `getMenuItems` of `Sidebar`, for the `user` of the auth
context. -/
def Sidebar.getMenuItems (user : JSValue) : List MenuItem :=
  match optionalRole user with
  | some (.string r) =>
    if r = "ADMIN" then
      [⟨"/admin/dashboard", "Dashboard", "📊"⟩,
      ⟨"/admin/users", "User Management", "👥"⟩,
      ⟨"/admin/patients", "Patients", "🤒"⟩,
      ⟨"/admin/doctors", "Doctors", "👨‍⚕️"⟩,
      ⟨"/admin/appointments", "Appointments", "📅"⟩]
    else if r = "DOCTOR" then
      [⟨"/doctor/dashboard", "Dashboard", "📊"⟩,
      ⟨"/doctor/appointments", "My Appointments", "📅"⟩,
      ⟨"/doctor/patients", "Patient Records", "📋"⟩]
    else if r = "PATIENT" then
      [⟨"/patient/dashboard", "Dashboard", "📊"⟩,
      ⟨"/patient/book-appointment", "Book Appointment", "📅"⟩,
      ⟨"/patient/medical-history", "Medical History", "📋"⟩]
    else []
  | _ => []

/-- The function `isActive` of `Sidebar`: the entry whose path is the current
location is the active one. -/
def Sidebar.isActive (location path : String) : Bool := location == path

/-! ## Dates and the patient views (`PatientDashboard.jsx`, `PatientManagement.jsx`, `MyMedicalHistory.jsx`) -/

/-- The local calendar fields of a valid `Date`: what `getFullYear`,
`getMonth` (0 to 11) and `getDate` (1 to 31) return. -/
structure CalendarDate where
  /-- The result of `getFullYear`. -/
  year : Int
  /-- The result of `getMonth`. -/
  month : Nat
  /-- The result of `getDate`. -/
  date : Nat
  deriving DecidableEq, Repr

/-- The order of calendar dates: year, then month, then day of the month. -/
def CalendarDate.onOrBefore (a b : CalendarDate) : Prop :=
  a.year < b.year ∨ (a.year = b.year ∧ (a.month < b.month ∨ (a.month = b.month ∧ a.date ≤ b.date)))

/-- The `n`-th anniversary of a date: the same month and day, `n` years later. -/
def CalendarDate.anniversary (birth : CalendarDate) (n : Int) : CalendarDate :=
  ⟨birth.year + n, birth.month, birth.date⟩

/-- Is the year a leap year of the Gregorian calendar? -/
def isLeapYear (year : Int) : Bool :=
  (decide (year % 4 = 0) && !decide (year % 100 = 0)) || decide (year % 400 = 0)

/-- The number of days of a month (0 to 11) of a year. -/
def daysInMonth (year : Int) (month : Nat) : Nat :=
  if month = 1 then (if isLeapYear year then 29 else 28)
  else if month = 3 ∨ month = 5 ∨ month = 8 ∨ month = 10 then 30
  else 31

/-- The calendar day before a given one. -/
def previousDay (d : CalendarDate) : CalendarDate :=
  if 1 < d.date then ⟨d.year, d.month, d.date - 1⟩
  else if 0 < d.month then ⟨d.year, d.month - 1, daysInMonth d.year (d.month - 1)⟩
  else ⟨d.year - 1, 11, 31⟩

/-- The local calendar fields of `new Date(text)` for a date-only text
`YYYY-MM-DD`, the form in which the date input of the patient form writes and
reads `dateOfBirth`: the text is read as midnight UTC of that day, which at a
negative offset of local time from UTC still falls on the day before. -/
def dateOnlyLocal (offsetMinutes : Int) (text : CalendarDate) : CalendarDate :=
  if offsetMinutes < 0 then previousDay text else text

/-- The function `calculateAge` of `PatientDashboard`.  The argument `none` stands
for a falsy `birthDate` (missing or empty), `some text` for the day written in
a date-only `birthDate`; `today` holds the local calendar fields of
`new Date()`, and `offsetMinutes` is the offset of local time from UTC. -/
def PatientDashboard.calculateAge (offsetMinutes : Int) (today : CalendarDate)
    (birthDate : Option CalendarDate) : JSValue :=
  match birthDate with
  | none => .string "N/A"
  | some text =>
    if (today.month : Int) - (dateOnlyLocal offsetMinutes text).month < 0 ∨
        ((today.month : Int) - (dateOnlyLocal offsetMinutes text).month = 0 ∧
          today.date < (dateOnlyLocal offsetMinutes text).date) then
      .number (today.year - (dateOnlyLocal offsetMinutes text).year - 1)
    else
      .number (today.year - (dateOnlyLocal offsetMinutes text).year)

/-- The function `calculateAge` of `PatientManagement`, with the same reading of
its arguments. -/
def PatientManagement.calculateAge (offsetMinutes : Int) (today : CalendarDate)
    (birthDate : Option CalendarDate) : JSValue :=
  match birthDate with
  | none => .string "N/A"
  | some text =>
    if (today.month : Int) - (dateOnlyLocal offsetMinutes text).month < 0 ∨
        ((today.month : Int) - (dateOnlyLocal offsetMinutes text).month = 0 ∧
          today.date < (dateOnlyLocal offsetMinutes text).date) then
      .number (today.year - (dateOnlyLocal offsetMinutes text).year - 1)
    else
      .number (today.year - (dateOnlyLocal offsetMinutes text).year)

/-- An appointment as `fetchDashboardData` reads it: the time of
`new Date(apt.appointmentDateTime)` in milliseconds (a valid date) and
`apt.status`. -/
structure Appointment where
  /-- The field `id`. -/
  id : Nat
  /-- The time value of `new Date(apt.appointmentDateTime)`. -/
  time : Int
  /-- The field `status`. -/
  status : String
  deriving DecidableEq, Repr

/-- The list `upcoming` of `fetchDashboardData`, before it is sliced: the
appointments after `now` with status `SCHEDULED`, sorted by ascending date
(`Array.prototype.sort` is stable). -/
def PatientDashboard.upcoming (now : Int) (appointments : List Appointment) :
    List Appointment :=
  (appointments.filter
    (fun apt => decide (apt.time > now) && apt.status == "SCHEDULED")).insertionSort
      (fun a b => a.time ≤ b.time)

/-- The list `recent` of `fetchDashboardData`, before it is sliced: the
appointments not after `now` or with status `COMPLETED`, sorted by descending
date. -/
def PatientDashboard.recent (now : Int) (appointments : List Appointment) :
    List Appointment :=
  (appointments.filter
    (fun apt => decide (apt.time ≤ now) || apt.status == "COMPLETED")).insertionSort
      (fun a b => b.time ≤ a.time)

/-- A medical record as `MyMedicalHistory` reads it; `visit` holds the calendar
fields of `new Date(record.visitDate)`, and a `symptoms` of `none` is a falsy
value. -/
structure MedicalRecord where
  /-- The field `id`. -/
  id : Nat
  /-- The field `diagnosis`. -/
  diagnosis : String
  /-- The field `doctorName`. -/
  doctorName : String
  /-- The field `symptoms`. -/
  symptoms : Option String
  /-- The calendar fields of `new Date(record.visitDate)`. -/
  visit : CalendarDate
  deriving DecidableEq, Repr

/-- The test `a.toLowerCase().includes(b.toLowerCase())`; only ASCII letters
are folded. -/
def includesIgnoreCase (a b : String) : Bool :=
  decide (b.toLower.data <:+: a.toLower.data)

/-- The calendar fields of `new Date(year + '-01-01')` for a four-digit year: a
date-only text is read as midnight UTC, which at a negative offset from UTC is
still 31 December of the year before. -/
def newYearLocal (offsetMinutes : Int) (year : Int) : CalendarDate :=
  if offsetMinutes < 0 then ⟨year - 1, 11, 31⟩ else ⟨year, 0, 1⟩

/-- The function `getUniqueYear` of `MyMedicalHistory`: the distinct years of
the records, in descending order. -/
def MyMedicalHistory.getUniqueYear (medicalHistory : List MedicalRecord) : List Int :=
  ((medicalHistory.map (fun record => record.visit.year)).dedup).insertionSort
    (fun a b => b ≤ a)

/-- The function `applyFilters` of `MyMedicalHistory`: the value it passes to
`setFilteredHistory`.  The cell `dateFilter` is empty (`none`) or the value
`year + '-01-01'` of an option of the Year select (`some year`);
`offsetMinutes` is the offset of local time from UTC. -/
def MyMedicalHistory.applyFilters (offsetMinutes : Int) (medicalHistory : List MedicalRecord)
    (searchTerm filterDoctor : String) (dateFilter : Option Int) : List MedicalRecord :=
  let bySearch :=
    if searchTerm != "" then
      medicalHistory.filter (fun record =>
        includesIgnoreCase record.diagnosis searchTerm ||
        includesIgnoreCase record.doctorName searchTerm ||
        (match record.symptoms with
          | some symptoms => symptoms != "" && includesIgnoreCase symptoms searchTerm
          | none => false))
    else medicalHistory
  let byDoctor :=
    if filterDoctor != "" then
      bySearch.filter (fun record => includesIgnoreCase record.doctorName filterDoctor)
    else bySearch
  match dateFilter with
  | some year =>
    byDoctor.filter (fun record =>
      decide (record.visit.year = (newYearLocal offsetMinutes year).year) &&
      decide (record.visit.month = (newYearLocal offsetMinutes year).month))
  | none => byDoctor

/-- A record of a visit on 15 June 2023. -/
def juneRecord : MedicalRecord := ⟨1, "Flu", "Dr. Lee", none, ⟨2023, 5, 15⟩⟩

/-! ## The service modules (`services/*.js`) -/

mutual
/-- The operation `ToString` on a value.  Numbers are integers and are
written in decimal. -/
def JSValue.toText : JSValue → String
  | .null => "null"
  | .bool true => "true"
  | .bool false => "false"
  | .number n => String.mk (JSON.renderInt n)
  | .string s => s
  | .array items => joinTexts items
  | .object _ => "[object Object]"
/-- The text of an array, `Array.prototype.join` with a comma: a `null`
element gives the empty text. -/
def joinTexts : List JSValue → String
  | [] => ""
  | [v] =>
    match v with
    | .null => ""
    | _ => v.toText
  | v :: w :: rest =>
    (match v with
      | .null => ""
      | _ => v.toText) ++ "," ++ joinTexts (w :: rest)
end

/-- The text a template literal inserts for a value, where `none` is
`undefined`. -/
def templateText (v : Option JSValue) : String :=
  match v with
  | none => "undefined"
  | some w => w.toText

/-- The HTTP method of a request: which function of `apiService` is called. -/
inductive Method where
  | GET : Method
  | POST : Method
  | PUT : Method
  | DELETE : Method
  deriving DecidableEq, Repr

/-- A call of `apiService`: the method, the path and the data passed, if any.
The module `./api` is not part of the sources; the request is what the service
modules hand to it. -/
structure Request where
  /-- The function of `apiService` that is called. -/
  method : Method
  /-- The first argument, the path. -/
  path : String
  /-- The second argument, if one is passed. -/
  body : Option JSValue

/-- A call of a function of a service module, with its arguments (`none` is
`undefined`). -/
inductive ServiceCall where
  | authService_login (credentials : Option JSValue) : ServiceCall
  | authService_logout : ServiceCall
  | userService_getAllUsers : ServiceCall
  | userService_getUserById (id : Option JSValue) : ServiceCall
  | userService_getUsersByRole (role : Option JSValue) : ServiceCall
  | userService_createUser (userData : Option JSValue) : ServiceCall
  | userService_updateUser (id : Option JSValue) (userData : Option JSValue) : ServiceCall
  | userService_deactivateUser (id : Option JSValue) : ServiceCall
  | userService_deleteUser (id : Option JSValue) : ServiceCall
  | patientService_getAllPatients : ServiceCall
  | patientService_getActivePatients : ServiceCall
  | patientService_getPatientById (id : Option JSValue) : ServiceCall
  | patientService_createPatient (patientData : Option JSValue) : ServiceCall
  | patientService_updatePatient (id : Option JSValue) (patientData : Option JSValue) : ServiceCall
  | patientService_deletePatient (id : Option JSValue) : ServiceCall
  | patientService_getPatientMedicalHistory (patientId : Option JSValue) : ServiceCall
  | doctorService_getAllDoctors : ServiceCall
  | doctorService_getActiveDoctors : ServiceCall
  | doctorService_getAvailableDoctors : ServiceCall
  | doctorService_getDoctorById (id : Option JSValue) : ServiceCall
  | doctorService_getDoctorsBySpecialization (specialization : Option JSValue) : ServiceCall
  | doctorService_createDoctor (doctorData : Option JSValue) : ServiceCall
  | doctorService_updateDoctor (id : Option JSValue) (doctorData : Option JSValue) : ServiceCall
  | doctorService_deleteDoctor (id : Option JSValue) : ServiceCall
  | appointmentService_getAllAppointments : ServiceCall
  | appointmentService_getTodaysAppointments : ServiceCall
  | appointmentService_getAppointmentsByPatient (patientId : Option JSValue) : ServiceCall
  | appointmentService_getAppointmentsByDoctor (doctorId : Option JSValue) : ServiceCall
  | appointmentService_getAppointmentsByStatus (status : Option JSValue) : ServiceCall
  | appointmentService_getAppointmentsByDateRange (startDate : Option JSValue) (endDate : Option JSValue) : ServiceCall
  | appointmentService_createAppointment (appointmentData : Option JSValue) : ServiceCall
  | appointmentService_updateAppointment (id : Option JSValue) (appointmentData : Option JSValue) : ServiceCall
  | appointmentService_updateAppointmentStatus (id : Option JSValue) (status : Option JSValue) : ServiceCall
  | appointmentService_deleteAppointment (id : Option JSValue) : ServiceCall
  | medicalRecordService_getAllMedicalRecords : ServiceCall
  | medicalRecordService_getMedicalRecordById (id : Option JSValue) : ServiceCall
  | medicalRecordService_getMedicalRecordsByPatient (patientId : Option JSValue) : ServiceCall
  | medicalRecordService_getMedicalRecordsByDoctor (doctorId : Option JSValue) : ServiceCall
  | medicalRecordService_getMedicalRecordByAppointment (appointmentId : Option JSValue) : ServiceCall
  | medicalRecordService_searchByDiagnosis (diagnosis : Option JSValue) : ServiceCall
  | medicalRecordService_createMedicalRecord (recordData : Option JSValue) : ServiceCall
  | medicalRecordService_updateMedicalRecord (id : Option JSValue) (recordData : Option JSValue) : ServiceCall
  | medicalRecordService_deleteMedicalRecord (id : Option JSValue) : ServiceCall
  | adminService_getDashboardData : ServiceCall
  | adminService_getUserStats : ServiceCall
  | adminService_getAppointmentStats : ServiceCall
  | adminService_createAdmin (adminData : Option JSValue) : ServiceCall

/-- The request a service function issues: the bodies of the functions of
`authService`, `userService`, `patientService`, `doctorService`,
`appointmentService`, `medicalRecordService` and `adminService`. -/
def ServiceCall.request : ServiceCall → Request
  | .authService_login credentials => ⟨.POST, "/api/auth/login", credentials⟩
  | .authService_logout => ⟨.POST, "/api/auth/logout", none⟩
  | .userService_getAllUsers => ⟨.GET, "/api/users", none⟩
  | .userService_getUserById id => ⟨.GET, "/api/users/" ++ templateText id, none⟩
  | .userService_getUsersByRole role => ⟨.GET, "/api/users/role/" ++ templateText role, none⟩
  | .userService_createUser userData => ⟨.POST, "/api/users", userData⟩
  | .userService_updateUser id userData => ⟨.PUT, "/api/users/" ++ templateText id, userData⟩
  | .userService_deactivateUser id => ⟨.PUT, "/api/users/" ++ templateText id ++ "/deactivate", none⟩
  | .userService_deleteUser id => ⟨.DELETE, "/api/users/" ++ templateText id, none⟩
  | .patientService_getAllPatients => ⟨.GET, "/api/patients", none⟩
  | .patientService_getActivePatients => ⟨.GET, "/api/patients/active", none⟩
  | .patientService_getPatientById id => ⟨.GET, "/api/patients/" ++ templateText id, none⟩
  | .patientService_createPatient patientData => ⟨.POST, "/api/patients", patientData⟩
  | .patientService_updatePatient id patientData => ⟨.PUT, "/api/patients/" ++ templateText id, patientData⟩
  | .patientService_deletePatient id => ⟨.DELETE, "/api/patients/" ++ templateText id, none⟩
  | .patientService_getPatientMedicalHistory patientId => ⟨.GET, "/api/medical-records/patient/" ++ templateText patientId, none⟩
  | .doctorService_getAllDoctors => ⟨.GET, "/api/doctors", none⟩
  | .doctorService_getActiveDoctors => ⟨.GET, "/api/doctors/active", none⟩
  | .doctorService_getAvailableDoctors => ⟨.GET, "/api/doctors/available", none⟩
  | .doctorService_getDoctorById id => ⟨.GET, "/api/doctors/" ++ templateText id, none⟩
  | .doctorService_getDoctorsBySpecialization specialization => ⟨.GET, "/api/doctors/specialization/" ++ templateText specialization, none⟩
  | .doctorService_createDoctor doctorData => ⟨.POST, "/api/doctors", doctorData⟩
  | .doctorService_updateDoctor id doctorData => ⟨.PUT, "/api/doctors/" ++ templateText id, doctorData⟩
  | .doctorService_deleteDoctor id => ⟨.DELETE, "/api/doctors/" ++ templateText id, none⟩
  | .appointmentService_getAllAppointments => ⟨.GET, "/api/appointments", none⟩
  | .appointmentService_getTodaysAppointments => ⟨.GET, "/api/appointments/today", none⟩
  | .appointmentService_getAppointmentsByPatient patientId => ⟨.GET, "/api/appointments/patient/" ++ templateText patientId, none⟩
  | .appointmentService_getAppointmentsByDoctor doctorId => ⟨.GET, "/api/appointments/doctor/" ++ templateText doctorId, none⟩
  | .appointmentService_getAppointmentsByStatus status => ⟨.GET, "/api/appointments/status/" ++ templateText status, none⟩
  | .appointmentService_getAppointmentsByDateRange startDate endDate => ⟨.GET, "/api/appointments/date-range?startDate=" ++ templateText startDate ++ "&endDate=" ++ templateText endDate, none⟩
  | .appointmentService_createAppointment appointmentData => ⟨.POST, "/api/appointments", appointmentData⟩
  | .appointmentService_updateAppointment id appointmentData => ⟨.PUT, "/api/appointments/" ++ templateText id, appointmentData⟩
  | .appointmentService_updateAppointmentStatus id status => ⟨.PUT, "/api/appointments/" ++ templateText id ++ "/status?status=" ++ templateText status, none⟩
  | .appointmentService_deleteAppointment id => ⟨.DELETE, "/api/appointments/" ++ templateText id, none⟩
  | .medicalRecordService_getAllMedicalRecords => ⟨.GET, "/api/medical-records", none⟩
  | .medicalRecordService_getMedicalRecordById id => ⟨.GET, "/api/medical-records/" ++ templateText id, none⟩
  | .medicalRecordService_getMedicalRecordsByPatient patientId => ⟨.GET, "/api/medical-records/patient/" ++ templateText patientId, none⟩
  | .medicalRecordService_getMedicalRecordsByDoctor doctorId => ⟨.GET, "/api/medical-records/doctor/" ++ templateText doctorId, none⟩
  | .medicalRecordService_getMedicalRecordByAppointment appointmentId => ⟨.GET, "/api/medical-records/appointment/" ++ templateText appointmentId, none⟩
  | .medicalRecordService_searchByDiagnosis diagnosis => ⟨.GET, "/api/medical-records/search?diagnosis=" ++ templateText diagnosis, none⟩
  | .medicalRecordService_createMedicalRecord recordData => ⟨.POST, "/api/medical-records", recordData⟩
  | .medicalRecordService_updateMedicalRecord id recordData => ⟨.PUT, "/api/medical-records/" ++ templateText id, recordData⟩
  | .medicalRecordService_deleteMedicalRecord id => ⟨.DELETE, "/api/medical-records/" ++ templateText id, none⟩
  | .adminService_getDashboardData => ⟨.GET, "/api/admin/dashboard", none⟩
  | .adminService_getUserStats => ⟨.GET, "/api/admin/users/stats", none⟩
  | .adminService_getAppointmentStats => ⟨.GET, "/api/admin/appointments/stats", none⟩
  | .adminService_createAdmin adminData => ⟨.POST, "/api/admin/create-admin", adminData⟩

/-- The texts of the arguments that a service function puts into its path,
in the order in which they occur there. -/
def ServiceCall.pathArgs : ServiceCall → List String
  | .authService_login _ => []
  | .authService_logout => []
  | .userService_getAllUsers => []
  | .userService_getUserById id => [templateText id]
  | .userService_getUsersByRole role => [templateText role]
  | .userService_createUser _ => []
  | .userService_updateUser id _ => [templateText id]
  | .userService_deactivateUser id => [templateText id]
  | .userService_deleteUser id => [templateText id]
  | .patientService_getAllPatients => []
  | .patientService_getActivePatients => []
  | .patientService_getPatientById id => [templateText id]
  | .patientService_createPatient _ => []
  | .patientService_updatePatient id _ => [templateText id]
  | .patientService_deletePatient id => [templateText id]
  | .patientService_getPatientMedicalHistory patientId => [templateText patientId]
  | .doctorService_getAllDoctors => []
  | .doctorService_getActiveDoctors => []
  | .doctorService_getAvailableDoctors => []
  | .doctorService_getDoctorById id => [templateText id]
  | .doctorService_getDoctorsBySpecialization specialization => [templateText specialization]
  | .doctorService_createDoctor _ => []
  | .doctorService_updateDoctor id _ => [templateText id]
  | .doctorService_deleteDoctor id => [templateText id]
  | .appointmentService_getAllAppointments => []
  | .appointmentService_getTodaysAppointments => []
  | .appointmentService_getAppointmentsByPatient patientId => [templateText patientId]
  | .appointmentService_getAppointmentsByDoctor doctorId => [templateText doctorId]
  | .appointmentService_getAppointmentsByStatus status => [templateText status]
  | .appointmentService_getAppointmentsByDateRange startDate endDate => [templateText startDate, templateText endDate]
  | .appointmentService_createAppointment _ => []
  | .appointmentService_updateAppointment id _ => [templateText id]
  | .appointmentService_updateAppointmentStatus id status => [templateText id, templateText status]
  | .appointmentService_deleteAppointment id => [templateText id]
  | .medicalRecordService_getAllMedicalRecords => []
  | .medicalRecordService_getMedicalRecordById id => [templateText id]
  | .medicalRecordService_getMedicalRecordsByPatient patientId => [templateText patientId]
  | .medicalRecordService_getMedicalRecordsByDoctor doctorId => [templateText doctorId]
  | .medicalRecordService_getMedicalRecordByAppointment appointmentId => [templateText appointmentId]
  | .medicalRecordService_searchByDiagnosis diagnosis => [templateText diagnosis]
  | .medicalRecordService_createMedicalRecord _ => []
  | .medicalRecordService_updateMedicalRecord id _ => [templateText id]
  | .medicalRecordService_deleteMedicalRecord id => [templateText id]
  | .adminService_getDashboardData => []
  | .adminService_getUserStats => []
  | .adminService_getAppointmentStats => []
  | .adminService_createAdmin _ => []

/-- A piece of a path pattern: fixed text, or the place of an argument. -/
inductive Piece where
  | lit (text : String) : Piece
  | arg (index : Nat) : Piece
  deriving DecidableEq, Repr

/-- The path a pattern denotes for given argument texts. -/
def fillPattern (pattern : List Piece) (args : List String) : String :=
  match pattern with
  | [] => ""
  | .lit text :: rest => text ++ fillPattern rest args
  | .arg index :: rest => args.getD index "" ++ fillPattern rest args

/-- The backend endpoints enumerated by the specification (section 6), in its
order, each as a method and a path pattern; a query parameter takes the
argument of the same name. -/
def specEndpoints : List (Method × List Piece) :=
  [(.POST, [.lit "/api/auth/login"]),
   (.POST, [.lit "/api/auth/logout"]),
   (.GET, [.lit "/api/users"]),
   (.GET, [.lit "/api/users/", .arg 0]),
   (.GET, [.lit "/api/users/role/", .arg 0]),
   (.POST, [.lit "/api/users"]),
   (.PUT, [.lit "/api/users/", .arg 0]),
   (.PUT, [.lit "/api/users/", .arg 0, .lit "/deactivate"]),
   (.DELETE, [.lit "/api/users/", .arg 0]),
   (.GET, [.lit "/api/patients"]),
   (.GET, [.lit "/api/patients/active"]),
   (.GET, [.lit "/api/patients/", .arg 0]),
   (.POST, [.lit "/api/patients"]),
   (.PUT, [.lit "/api/patients/", .arg 0]),
   (.DELETE, [.lit "/api/patients/", .arg 0]),
   (.GET, [.lit "/api/doctors"]),
   (.GET, [.lit "/api/doctors/active"]),
   (.GET, [.lit "/api/doctors/available"]),
   (.GET, [.lit "/api/doctors/", .arg 0]),
   (.GET, [.lit "/api/doctors/specialization/", .arg 0]),
   (.POST, [.lit "/api/doctors"]),
   (.PUT, [.lit "/api/doctors/", .arg 0]),
   (.DELETE, [.lit "/api/doctors/", .arg 0]),
   (.GET, [.lit "/api/appointments"]),
   (.GET, [.lit "/api/appointments/today"]),
   (.GET, [.lit "/api/appointments/patient/", .arg 0]),
   (.GET, [.lit "/api/appointments/doctor/", .arg 0]),
   (.GET, [.lit "/api/appointments/status/", .arg 0]),
   (.GET, [.lit "/api/appointments/date-range?startDate=", .arg 0, .lit "&endDate=", .arg 1]),
   (.POST, [.lit "/api/appointments"]),
   (.PUT, [.lit "/api/appointments/", .arg 0]),
   (.PUT, [.lit "/api/appointments/", .arg 0, .lit "/status?status=", .arg 1]),
   (.DELETE, [.lit "/api/appointments/", .arg 0]),
   (.GET, [.lit "/api/medical-records"]),
   (.GET, [.lit "/api/medical-records/", .arg 0]),
   (.GET, [.lit "/api/medical-records/patient/", .arg 0]),
   (.GET, [.lit "/api/medical-records/doctor/", .arg 0]),
   (.GET, [.lit "/api/medical-records/appointment/", .arg 0]),
   (.GET, [.lit "/api/medical-records/search?diagnosis=", .arg 0]),
   (.POST, [.lit "/api/medical-records"]),
   (.PUT, [.lit "/api/medical-records/", .arg 0]),
   (.DELETE, [.lit "/api/medical-records/", .arg 0]),
   (.GET, [.lit "/api/admin/dashboard"]),
   (.GET, [.lit "/api/admin/users/stats"]),
   (.GET, [.lit "/api/admin/appointments/stats"]),
   (.POST, [.lit "/api/admin/create-admin"])]

/-- The enumerated endpoint that a service function is an instance of. -/
def ServiceCall.endpoint : ServiceCall → Method × List Piece
  | .authService_login _ => (.POST, [.lit "/api/auth/login"])
  | .authService_logout => (.POST, [.lit "/api/auth/logout"])
  | .userService_getAllUsers => (.GET, [.lit "/api/users"])
  | .userService_getUserById _ => (.GET, [.lit "/api/users/", .arg 0])
  | .userService_getUsersByRole _ => (.GET, [.lit "/api/users/role/", .arg 0])
  | .userService_createUser _ => (.POST, [.lit "/api/users"])
  | .userService_updateUser _ _ => (.PUT, [.lit "/api/users/", .arg 0])
  | .userService_deactivateUser _ => (.PUT, [.lit "/api/users/", .arg 0, .lit "/deactivate"])
  | .userService_deleteUser _ => (.DELETE, [.lit "/api/users/", .arg 0])
  | .patientService_getAllPatients => (.GET, [.lit "/api/patients"])
  | .patientService_getActivePatients => (.GET, [.lit "/api/patients/active"])
  | .patientService_getPatientById _ => (.GET, [.lit "/api/patients/", .arg 0])
  | .patientService_createPatient _ => (.POST, [.lit "/api/patients"])
  | .patientService_updatePatient _ _ => (.PUT, [.lit "/api/patients/", .arg 0])
  | .patientService_deletePatient _ => (.DELETE, [.lit "/api/patients/", .arg 0])
  | .patientService_getPatientMedicalHistory _ => (.GET, [.lit "/api/medical-records/patient/", .arg 0])
  | .doctorService_getAllDoctors => (.GET, [.lit "/api/doctors"])
  | .doctorService_getActiveDoctors => (.GET, [.lit "/api/doctors/active"])
  | .doctorService_getAvailableDoctors => (.GET, [.lit "/api/doctors/available"])
  | .doctorService_getDoctorById _ => (.GET, [.lit "/api/doctors/", .arg 0])
  | .doctorService_getDoctorsBySpecialization _ => (.GET, [.lit "/api/doctors/specialization/", .arg 0])
  | .doctorService_createDoctor _ => (.POST, [.lit "/api/doctors"])
  | .doctorService_updateDoctor _ _ => (.PUT, [.lit "/api/doctors/", .arg 0])
  | .doctorService_deleteDoctor _ => (.DELETE, [.lit "/api/doctors/", .arg 0])
  | .appointmentService_getAllAppointments => (.GET, [.lit "/api/appointments"])
  | .appointmentService_getTodaysAppointments => (.GET, [.lit "/api/appointments/today"])
  | .appointmentService_getAppointmentsByPatient _ => (.GET, [.lit "/api/appointments/patient/", .arg 0])
  | .appointmentService_getAppointmentsByDoctor _ => (.GET, [.lit "/api/appointments/doctor/", .arg 0])
  | .appointmentService_getAppointmentsByStatus _ => (.GET, [.lit "/api/appointments/status/", .arg 0])
  | .appointmentService_getAppointmentsByDateRange _ _ => (.GET, [.lit "/api/appointments/date-range?startDate=", .arg 0, .lit "&endDate=", .arg 1])
  | .appointmentService_createAppointment _ => (.POST, [.lit "/api/appointments"])
  | .appointmentService_updateAppointment _ _ => (.PUT, [.lit "/api/appointments/", .arg 0])
  | .appointmentService_updateAppointmentStatus _ _ => (.PUT, [.lit "/api/appointments/", .arg 0, .lit "/status?status=", .arg 1])
  | .appointmentService_deleteAppointment _ => (.DELETE, [.lit "/api/appointments/", .arg 0])
  | .medicalRecordService_getAllMedicalRecords => (.GET, [.lit "/api/medical-records"])
  | .medicalRecordService_getMedicalRecordById _ => (.GET, [.lit "/api/medical-records/", .arg 0])
  | .medicalRecordService_getMedicalRecordsByPatient _ => (.GET, [.lit "/api/medical-records/patient/", .arg 0])
  | .medicalRecordService_getMedicalRecordsByDoctor _ => (.GET, [.lit "/api/medical-records/doctor/", .arg 0])
  | .medicalRecordService_getMedicalRecordByAppointment _ => (.GET, [.lit "/api/medical-records/appointment/", .arg 0])
  | .medicalRecordService_searchByDiagnosis _ => (.GET, [.lit "/api/medical-records/search?diagnosis=", .arg 0])
  | .medicalRecordService_createMedicalRecord _ => (.POST, [.lit "/api/medical-records"])
  | .medicalRecordService_updateMedicalRecord _ _ => (.PUT, [.lit "/api/medical-records/", .arg 0])
  | .medicalRecordService_deleteMedicalRecord _ => (.DELETE, [.lit "/api/medical-records/", .arg 0])
  | .adminService_getDashboardData => (.GET, [.lit "/api/admin/dashboard"])
  | .adminService_getUserStats => (.GET, [.lit "/api/admin/users/stats"])
  | .adminService_getAppointmentStats => (.GET, [.lit "/api/admin/appointments/stats"])
  | .adminService_createAdmin _ => (.POST, [.lit "/api/admin/create-admin"])

/-! ## The views (`components/admin`, `components/doctor`, `components/patient`) -/

/-- The state of a view: its `useState` cells by name, the messages it has
shown with `alert`, and the first arguments of its calls of `console.error`,
oldest first.  A cell that holds `undefined` is recorded as `null`; the views
only test such cells for truthiness. -/
structure ViewState where
  /-- The cells of the component, by the name of the state variable. -/
  cells : String → JSValue
  /-- The messages shown with `alert`. -/
  alerts : List String
  /-- The first arguments of the calls of `console.error`. -/
  errors : List String

/-- The state of a component with the given initial cells. -/
def ViewState.ofCells (init : List (String × JSValue)) : ViewState :=
  ⟨fun name => (lookup name init).getD .null, [], []⟩

/-- A call of the setter of a cell. -/
def ViewState.set (v : ViewState) (name : String) (value : JSValue) : ViewState :=
  ⟨fun n => if n = name then value else v.cells n, v.alerts, v.errors⟩

/-- A call of `alert`. -/
def ViewState.alert (v : ViewState) (message : String) : ViewState :=
  ⟨v.cells, v.alerts ++ [message], v.errors⟩

/-- A call of `console.error`. -/
def ViewState.logError (v : ViewState) (message : String) : ViewState :=
  ⟨v.cells, v.alerts, v.errors ++ [message]⟩

/-- How an awaited step inside a `try` block ends: with the value the code
obtains from the responses, or with an error, which is a rejected service call
or an exception raised while the responses are processed. -/
inductive Stage (α : Type) where
  | done (value : α) : Stage α
  | failed : Stage α

/-- A failed read that ends softly: loading is false and every other cell is
as it was before. -/
def ViewState.endsSoftly (before after : ViewState) : Prop :=
  after.cells "loading" = .bool false ∧
  ∀ name : String, name ≠ "loading" → after.cells name = before.cells name

/-- The empty form of `UserManagement`: the initial value of `formData`, which
`resetForm` restores. -/
def UserManagement.emptyForm : JSValue :=
  .object
    [("username", .string ""),
     ("email", .string ""),
     ("password", .string ""),
     ("firstName", .string ""),
     ("lastName", .string ""),
     ("phoneNumber", .string ""),
     ("role", .string "PATIENT"),
     ("active", .bool true)]

/-- The cells of `UserManagement` as the component is mounted: its `useState` calls. -/
def UserManagement.initial : ViewState :=
  ViewState.ofCells
    [("users", .array []),
     ("loading", .bool true),
     ("showModal", .bool false),
     ("editingUser", .null),
     ("formData", UserManagement.emptyForm)]

/-- The empty form of `PatientManagement`: the initial value of `formData`, which
`resetForm` restores. -/
def PatientManagement.emptyForm : JSValue :=
  .object
    [("user", .object
      [("username", .string ""),
       ("email", .string ""),
       ("password", .string ""),
       ("firstName", .string ""),
       ("lastName", .string ""),
       ("phoneNumber", .string ""),
       ("role", .string "PATIENT"),
       ("active", .bool true)]),
     ("dateOfBirth", .string ""),
     ("gender", .string "Male"),
     ("address", .string ""),
     ("emergencyContact", .string ""),
     ("bloodGroup", .string "A+"),
     ("allergies", .string ""),
     ("medicalHistory", .string "")]

/-- The cells of `PatientManagement` as the component is mounted: its `useState` calls. -/
def PatientManagement.initial : ViewState :=
  ViewState.ofCells
    [("patients", .array []),
     ("loading", .bool true),
     ("showModal", .bool false),
     ("showMedicalHistory", .bool false),
     ("editingPatient", .null),
     ("medicalHistory", .array []),
     ("formData", PatientManagement.emptyForm)]

/-- The empty form of `DoctorManagement`: the initial value of `formData`, which
`resetForm` restores. -/
def DoctorManagement.emptyForm : JSValue :=
  .object
    [("user", .object
      [("username", .string ""),
       ("email", .string ""),
       ("password", .string ""),
       ("firstName", .string ""),
       ("lastName", .string ""),
       ("phoneNumber", .string ""),
       ("role", .string "DOCTOR"),
       ("active", .bool true)]),
     ("specialization", .string ""),
     ("qualification", .string ""),
     ("experience", .string ""),
     ("department", .string ""),
     ("consultationFee", .string ""),
     ("workingHours", .string ""),
     ("available", .bool true)]

/-- The cells of `DoctorManagement` as the component is mounted: its `useState` calls. -/
def DoctorManagement.initial : ViewState :=
  ViewState.ofCells
    [("doctors", .array []),
     ("loading", .bool true),
     ("showModal", .bool false),
     ("editingDoctor", .null),
     ("formData", DoctorManagement.emptyForm)]

/-- The empty form of `AppointmentManagement`: the initial value of `formData`, which
`resetForm` restores. -/
def AppointmentManagement.emptyForm : JSValue :=
  .object
    [("patientId", .string ""),
     ("doctorId", .string ""),
     ("appointmentDateTime", .string ""),
     ("reason", .string ""),
     ("status", .string "SCHEDULED"),
     ("notes", .string ""),
     ("prescription", .string "")]

/-- The cells of `AppointmentManagement` as the component is mounted: its `useState` calls. -/
def AppointmentManagement.initial : ViewState :=
  ViewState.ofCells
    [("appointments", .array []),
     ("patients", .array []),
     ("doctors", .array []),
     ("loading", .bool true),
     ("showModal", .bool false),
     ("editingAppointment", .null),
     ("filterStatus", .string ""),
     ("formData", AppointmentManagement.emptyForm)]

/-- The function `fetchUsers` of `UserManagement`; `data` is the outcome of
`userService.getAllUsers()`. -/
def UserManagement.fetchUsers (v : ViewState) (data : Stage JSValue) : ViewState :=
  match data with
  | .done users => (v.set "users" users).set "loading" (.bool false)
  | .failed => (v.logError "Error fetching users:").set "loading" (.bool false)

/-- The function `resetForm` of `UserManagement`. -/
def UserManagement.resetForm (v : ViewState) : ViewState :=
  (v.set "formData" UserManagement.emptyForm).set "editingUser" .null

/-- The function `openAddModal` of `UserManagement`. -/
def UserManagement.openAddModal (v : ViewState) : ViewState :=
  (UserManagement.resetForm v).set "showModal" (.bool true)

/-- The function `handleSubmit` of `UserManagement`; `saved` is the outcome of
`updateUser` (when `editingUser` is set) or `createUser`, `refetch` that of
the `fetchUsers` it starts on success. -/
def UserManagement.handleSubmit (v : ViewState) (saved refetch : Stage JSValue) : ViewState :=
  match saved with
  | .done _ =>
    UserManagement.fetchUsers (UserManagement.resetForm (v.set "showModal" (.bool false)))
      refetch
  | .failed => v.logError "Error saving user:"

/-- The function `handleDelete` of `UserManagement`; `confirmed` is the answer
of `window.confirm`, `deleted` the outcome of `deleteUser`. -/
def UserManagement.handleDelete (v : ViewState) (confirmed : Bool)
    (deleted refetch : Stage JSValue) : ViewState :=
  if confirmed then
    match deleted with
    | .done _ => UserManagement.fetchUsers v refetch
    | .failed => v.logError "Error deleting user:"
  else v

/-- The function `fetchPatients` of `PatientManagement`; `data` is the outcome
of `patientService.getAllPatients()`. -/
def PatientManagement.fetchPatients (v : ViewState) (data : Stage JSValue) : ViewState :=
  match data with
  | .done patients => (v.set "patients" patients).set "loading" (.bool false)
  | .failed => (v.logError "Error fetching patients:").set "loading" (.bool false)

/-- The function `resetForm` of `PatientManagement`. -/
def PatientManagement.resetForm (v : ViewState) : ViewState :=
  (v.set "formData" PatientManagement.emptyForm).set "editingPatient" .null

/-- The function `openAddModal` of `PatientManagement`. -/
def PatientManagement.openAddModal (v : ViewState) : ViewState :=
  (PatientManagement.resetForm v).set "showModal" (.bool true)

/-- The function `handleSubmit` of `PatientManagement`; `saved` is the outcome
of `updatePatient` or `createPatient`. -/
def PatientManagement.handleSubmit (v : ViewState) (saved refetch : Stage JSValue) :
    ViewState :=
  match saved with
  | .done _ =>
    PatientManagement.fetchPatients
      (PatientManagement.resetForm (v.set "showModal" (.bool false))) refetch
  | .failed =>
    (v.logError "Error saving patient:").alert "Error saving patient. Please try again."

/-- The function `handleDelete` of `PatientManagement`. -/
def PatientManagement.handleDelete (v : ViewState) (confirmed : Bool)
    (deleted refetch : Stage JSValue) : ViewState :=
  if confirmed then
    match deleted with
    | .done _ => PatientManagement.fetchPatients v refetch
    | .failed =>
      (v.logError "Error deleting patient:").alert "Error deleting patient. Please try again."
  else v

/-- The function `handleViewMedicalHistory` of `PatientManagement`; `history`
is the outcome of `getPatientMedicalHistory(patientId)`. -/
def PatientManagement.handleViewMedicalHistory (v : ViewState) (history : Stage JSValue) :
    ViewState :=
  match history with
  | .done records =>
    (v.set "medicalHistory" records).set "showMedicalHistory" (.bool true)
  | .failed =>
    (v.logError "Error fetching medical history:").alert "Error fetching medical history."

/-- The function `fetchDoctors` of `DoctorManagement`; `data` is the outcome of
`doctorService.getAllDoctors()`. -/
def DoctorManagement.fetchDoctors (v : ViewState) (data : Stage JSValue) : ViewState :=
  match data with
  | .done doctors => (v.set "doctors" doctors).set "loading" (.bool false)
  | .failed => (v.logError "Error fetching doctors:").set "loading" (.bool false)

/-- The function `resetForm` of `DoctorManagement`. -/
def DoctorManagement.resetForm (v : ViewState) : ViewState :=
  (v.set "formData" DoctorManagement.emptyForm).set "editingDoctor" .null

/-- The function `openAddModal` of `DoctorManagement`. -/
def DoctorManagement.openAddModal (v : ViewState) : ViewState :=
  (DoctorManagement.resetForm v).set "showModal" (.bool true)

/-- The function `handleSubmit` of `DoctorManagement`; `saved` is the outcome
of `updateDoctor` or `createDoctor`. -/
def DoctorManagement.handleSubmit (v : ViewState) (saved refetch : Stage JSValue) :
    ViewState :=
  match saved with
  | .done _ =>
    DoctorManagement.fetchDoctors
      (DoctorManagement.resetForm (v.set "showModal" (.bool false))) refetch
  | .failed =>
    (v.logError "Error saving doctor:").alert "Error saving doctor. Please try again."

/-- The function `handleDelete` of `DoctorManagement`. -/
def DoctorManagement.handleDelete (v : ViewState) (confirmed : Bool)
    (deleted refetch : Stage JSValue) : ViewState :=
  if confirmed then
    match deleted with
    | .done _ => DoctorManagement.fetchDoctors v refetch
    | .failed => v.logError "Error deleting doctor:"
  else v

/-- The function `fetchData` of `AppointmentManagement`; `data` is the outcome
of the `Promise.all` of `getAllAppointments`, `getActivePatients` and
`getAvailableDoctors`. -/
def AppointmentManagement.fetchData (v : ViewState)
    (data : Stage (JSValue × JSValue × JSValue)) : ViewState :=
  match data with
  | .done (appointments, patients, doctors) =>
    (((v.set "appointments" appointments).set "patients" patients).set "doctors"
      doctors).set "loading" (.bool false)
  | .failed => (v.logError "Error fetching data:").set "loading" (.bool false)

/-- The function `resetForm` of `AppointmentManagement`. -/
def AppointmentManagement.resetForm (v : ViewState) : ViewState :=
  (v.set "formData" AppointmentManagement.emptyForm).set "editingAppointment" .null

/-- The function `openAddModal` of `AppointmentManagement`. -/
def AppointmentManagement.openAddModal (v : ViewState) : ViewState :=
  (AppointmentManagement.resetForm v).set "showModal" (.bool true)

/-- The function `handleSubmit` of `AppointmentManagement`; `saved` is the
outcome of `updateAppointment` or `createAppointment`. -/
def AppointmentManagement.handleSubmit (v : ViewState) (saved : Stage JSValue)
    (refetch : Stage (JSValue × JSValue × JSValue)) : ViewState :=
  match saved with
  | .done _ =>
    AppointmentManagement.fetchData
      (AppointmentManagement.resetForm (v.set "showModal" (.bool false))) refetch
  | .failed =>
    (v.logError "Error saving appointment:").alert
      "Error saving appointment. Please try again."

/-- The function `handleDelete` of `AppointmentManagement`. -/
def AppointmentManagement.handleDelete (v : ViewState) (confirmed : Bool)
    (deleted : Stage JSValue) (refetch : Stage (JSValue × JSValue × JSValue)) : ViewState :=
  if confirmed then
    match deleted with
    | .done _ => AppointmentManagement.fetchData v refetch
    | .failed => v.logError "Error deleting appointment:"
  else v

/-- The cells of `AdminDashboard` as the component is mounted: its `useState` calls. -/
def AdminDashboard.initial : ViewState :=
  ViewState.ofCells
    [("dashboardData", .null),
     ("todaysAppointments", .array []),
     ("loading", .bool true)]

/-- The cells of `DoctorDashboard` as the component is mounted: its `useState` calls. -/
def DoctorDashboard.initial : ViewState :=
  ViewState.ofCells
    [("dashboardData", .object
        [("todaysAppointments", .array []),
         ("upcomingAppointments", .array []),
         ("totalPatients", .number 0),
         ("completedAppointments", .number 0)]),
     ("doctorInfo", .null),
     ("loading", .bool true)]

/-- The cells of `MyAppointments` as the component is mounted: its `useState` calls. -/
def MyAppointments.initial : ViewState :=
  ViewState.ofCells
    [("appointments", .array []),
     ("filteredAppointments", .array []),
     ("doctorInfo", .null),
     ("loading", .bool true),
     ("showMedicalRecordModal", .bool false),
     ("selectedAppointment", .null),
     ("filterStatus", .string ""),
     ("filterDate", .string ""),
     ("medicalRecordForm", .object
        [("diagnosis", .string ""),
         ("symptoms", .string ""),
         ("treatment", .string ""),
         ("prescription", .string ""),
         ("testResults", .string ""),
         ("notes", .string "")])]

/-- The cells of `PatientRecords` as the component is mounted: its `useState` calls. -/
def PatientRecords.initial : ViewState :=
  ViewState.ofCells
    [("medicalRecords", .array []),
     ("patients", .array []),
     ("doctorInfo", .null),
     ("loading", .bool true),
     ("showRecordModal", .bool false),
     ("selectedRecord", .null),
     ("searchTerm", .string ""),
     ("filterPatient", .string ""),
     ("filteredRecords", .array [])]

/-- The cells of `BookAppointment` as the component is mounted: its `useState` calls. -/
def BookAppointment.initial : ViewState :=
  ViewState.ofCells
    [("doctors", .array []),
     ("filteredDoctors", .array []),
     ("patientInfo", .null),
     ("loading", .bool false),
     ("success", .string ""),
     ("error", .string ""),
     ("filterSpecialization", .string ""),
     ("formData", .object
        [("doctorId", .string ""),
         ("appointmentDateTime", .string ""),
         ("reason", .string "")])]

/-- The cells of `MyMedicalHistory` as the component is mounted: its `useState` calls. -/
def MyMedicalHistory.initial : ViewState :=
  ViewState.ofCells
    [("medicalHistory", .array []),
     ("patientInfo", .null),
     ("loading", .bool true),
     ("showRecordModal", .bool false),
     ("selectedRecord", .null),
     ("searchTerm", .string ""),
     ("filterDoctor", .string ""),
     ("dateFilter", .string ""),
     ("filteredHistory", .array [])]

/-- The cells of `PatientDashboard` as the component is mounted: its `useState` calls. -/
def PatientDashboard.initial : ViewState :=
  ViewState.ofCells
    [("dashboardData", .object
        [("upcomingAppointments", .array []),
         ("recentAppointments", .array []),
         ("medicalHistory", .array [])]),
     ("patientInfo", .null),
     ("loading", .bool true)]

/-- The function `fetchDashboardData` of `AdminDashboard`; `data` is the outcome
of the `Promise.all` of `getDashboardData` and `getTodaysAppointments`. -/
def AdminDashboard.fetchDashboardData (v : ViewState) (data : Stage (JSValue × JSValue)) :
    ViewState :=
  match data with
  | .done (dashData, todayAppts) =>
    ((v.set "dashboardData" dashData).set "todaysAppointments" todayAppts).set "loading"
      (.bool false)
  | .failed => (v.logError "Error fetching dashboard data:").set "loading" (.bool false)

/-- The function `fetchDashboardData` of `DoctorDashboard`.  The first step
ends with `currentDoctor`, the result of `find` on the doctors fetched (`none`
is `undefined`); the second with the value passed to `setDashboardData`,
computed from the two lists of appointments fetched. -/
def DoctorDashboard.fetchDashboardData (v : ViewState) (found : Stage (Option JSValue))
    (computed : Stage JSValue) : ViewState :=
  match found with
  | .failed => (v.logError "Error fetching dashboard data:").set "loading" (.bool false)
  | .done currentDoctor =>
    if truthy? currentDoctor then
      match computed with
      | .done dashboardData =>
        ((v.set "doctorInfo" (currentDoctor.getD .null)).set "dashboardData"
          dashboardData).set "loading" (.bool false)
      | .failed =>
        ((v.set "doctorInfo" (currentDoctor.getD .null)).logError
          "Error fetching dashboard data:").set "loading" (.bool false)
    else v.set "loading" (.bool false)

/-- The function `fetchData` of `MyAppointments`.  The first step ends with
`currentDoctor`, the second with the sorted appointments of that doctor. -/
def MyAppointments.fetchData (v : ViewState) (found : Stage (Option JSValue))
    (sorted : Stage JSValue) : ViewState :=
  match found with
  | .failed => (v.logError "Error fetching appointments:").set "loading" (.bool false)
  | .done currentDoctor =>
    if truthy? currentDoctor then
      match sorted with
      | .done appointments =>
        ((v.set "doctorInfo" (currentDoctor.getD .null)).set "appointments"
          appointments).set "loading" (.bool false)
      | .failed =>
        ((v.set "doctorInfo" (currentDoctor.getD .null)).logError
          "Error fetching appointments:").set "loading" (.bool false)
    else v.set "loading" (.bool false)

/-- The function `fetchData` of `PatientRecords`.  The first step ends with
`currentDoctor`, the second with the sorted records of that doctor, the third
with the patients of those records. -/
def PatientRecords.fetchData (v : ViewState) (found : Stage (Option JSValue))
    (sorted relevant : Stage JSValue) : ViewState :=
  match found with
  | .failed => (v.logError "Error fetching patient records:").set "loading" (.bool false)
  | .done currentDoctor =>
    if truthy? currentDoctor then
      match sorted with
      | .failed =>
        ((v.set "doctorInfo" (currentDoctor.getD .null)).logError
          "Error fetching patient records:").set "loading" (.bool false)
      | .done records =>
        match relevant with
        | .done patients =>
          (((v.set "doctorInfo" (currentDoctor.getD .null)).set "medicalRecords"
            records).set "patients" patients).set "loading" (.bool false)
        | .failed =>
          (((v.set "doctorInfo" (currentDoctor.getD .null)).set "medicalRecords"
            records).logError "Error fetching patient records:").set "loading" (.bool false)
    else v.set "loading" (.bool false)

/-- The function `fetchData` of `BookAppointment`.  The first step ends with
the doctors fetched by the `Promise.all`, the second with `currentPatient`,
the result of `find` on the patients fetched. -/
def BookAppointment.fetchData (v : ViewState) (doctorsData : Stage JSValue)
    (found : Stage (Option JSValue)) : ViewState :=
  match doctorsData with
  | .failed =>
    (v.logError "Error fetching data:").set "error"
      (.string "Error loading doctors. Please try again.")
  | .done doctors =>
    match found with
    | .done currentPatient =>
      (v.set "doctors" doctors).set "patientInfo" (currentPatient.getD .null)
    | .failed =>
      ((v.set "doctors" doctors).logError "Error fetching data:").set "error"
        (.string "Error loading doctors. Please try again.")

/-- The function `fetchData` of `MyMedicalHistory`.  The first step ends with
`currentPatient`, the second with the sorted medical history. -/
def MyMedicalHistory.fetchData (v : ViewState) (found : Stage (Option JSValue))
    (sorted : Stage JSValue) : ViewState :=
  match found with
  | .failed => (v.logError "Error fetching medical history:").set "loading" (.bool false)
  | .done currentPatient =>
    if truthy? currentPatient then
      match sorted with
      | .done history =>
        ((v.set "patientInfo" (currentPatient.getD .null)).set "medicalHistory"
          history).set "loading" (.bool false)
      | .failed =>
        ((v.set "patientInfo" (currentPatient.getD .null)).logError
          "Error fetching medical history:").set "loading" (.bool false)
    else v.set "loading" (.bool false)

/-- The function `fetchDashboardData` of `PatientDashboard`.  The first step
ends with `currentPatient`, the second with the value passed to
`setDashboardData`, computed from the appointments and the medical history
fetched. -/
def PatientDashboard.fetchDashboardData (v : ViewState) (found : Stage (Option JSValue))
    (computed : Stage JSValue) : ViewState :=
  match found with
  | .failed => (v.logError "Error fetching dashboard data:").set "loading" (.bool false)
  | .done currentPatient =>
    if truthy? currentPatient then
      match computed with
      | .done dashboardData =>
        ((v.set "patientInfo" (currentPatient.getD .null)).set "dashboardData"
          dashboardData).set "loading" (.bool false)
      | .failed =>
        ((v.set "patientInfo" (currentPatient.getD .null)).logError
          "Error fetching dashboard data:").set "loading" (.bool false)
    else v.set "loading" (.bool false)

/-- The expression `dashboardData?.recentPatients`: `undefined` for a `null`
cell. -/
def optionalRecentPatients (dashboardData : JSValue) : Option JSValue :=
  match dashboardData with
  | .null => none
  | _ => dashboardData.get "recentPatients"

/-- What a view shows in one of its sections: the loading placeholder, the
rows of a list, the line of the `no-data` class, or nothing. -/
inductive Shown where
  | placeholder : Shown
  | rows (count : Nat) : Shown
  | noData : Shown
  | hidden : Shown
  deriving DecidableEq, Repr

/-- The table body of `UserManagement`, `users.map(...)`: one row for each
user.  The result `none` stands for a cell that holds no array, which is
outside the model. -/
def UserManagement.usersTable (v : ViewState) : Option Shown :=
  match v.cells "users" with
  | .array items => some (.rows items.length)
  | _ => none

/-- The list of today's appointments of `AdminDashboard`: the placeholder
while loading, else at most five rows, or the `no-data` line for an empty
list. -/
def AdminDashboard.todaysSection (v : ViewState) : Option Shown :=
  if (v.cells "loading").truthy then some .placeholder
  else
    match v.cells "todaysAppointments" with
    | .array [] => some .noData
    | .array items => some (.rows (min items.length 5))
    | _ => none

/-- The table of recent patients of `AdminDashboard`,
`dashboardData?.recentPatients?.slice(0, 5).map(...) || no-data`. -/
def AdminDashboard.recentPatientsSection (v : ViewState) : Option Shown :=
  if (v.cells "loading").truthy then some .placeholder
  else
    match optionalRecentPatients (v.cells "dashboardData") with
    | none => some .noData
    | some .null => some .noData
    | some (.array items) => some (.rows (min items.length 5))
    | _ => none

/-- The medical history modal of `PatientManagement`: hidden unless
`showMedicalHistory` is set, else the rows of the history, or the `no-data`
line for an empty history. -/
def PatientManagement.historySection (v : ViewState) : Option Shown :=
  if (v.cells "showMedicalHistory").truthy then
    match v.cells "medicalHistory" with
    | .array [] => some .noData
    | .array items => some (.rows items.length)
    | _ => none
  else some .hidden

/-! ## Sequences of operations on the auth context -/

/-- The operations that write the state of the auth context. -/
inductive Event where
  | startup : Event
  | login (post : Settled) : Event
  | logout (post : Settled) : Event

/-- The state after one operation.  A startup effect that throws has written
nothing. -/
def AuthProvider.step (st : AuthState) : Event → AuthState
  | .startup =>
    match AuthProvider.startupEffect st with
    | .ok st' => st'
    | .error _ => st
  | .login post => (AuthProvider.login st post).1
  | .logout post => (AuthProvider.logout st post).1

/-- The state after a sequence of operations, taken in any order.  This
accepts more sequences than the program runs, see `AuthProvider.session`. -/
def AuthProvider.run (st : AuthState) (events : List Event) : AuthState :=
  events.foldl AuthProvider.step st

/-- A call that a view makes on the mounted auth context. -/
inductive Call where
  | login (post : Settled) : Call
  | logout (post : Settled) : Call

/-- The operation a call performs. -/
def Call.toEvent : Call → Event
  | .login post => .login post
  | .logout post => .logout post

/-- The state of a session of the program.  The startup effect, declared with
`useEffect(..., [])`, runs once when `AuthProvider` is mounted, before the
awaited POST of any `login` can settle; when it throws, the component tree is
taken down and no call follows; otherwise the views call `login` and `logout`
in any order. -/
def AuthProvider.session (store : Storage) (calls : List Call) : AuthState :=
  match AuthProvider.startupEffect (AuthState.fresh store) with
  | .ok st => AuthProvider.run st (calls.map Call.toEvent)
  | .error _ => AuthState.fresh store

/-- The auth context together with the number of `login` calls whose POST has
not settled yet.  The count is bookkeeping of the model: the code keeps no
such cell. -/
structure Gateway where
  /-- The state of the auth context. -/
  auth : AuthState
  /-- The number of calls of `login` in flight. -/
  inFlight : Nat

/-- A call of `login` up to its `await`: the POST is issued without any test,
whatever the number of calls in flight. -/
def Gateway.call (g : Gateway) : Gateway := ⟨g.auth, g.inFlight + 1⟩

/-- The rest of a call of `login`, run when its POST settles. -/
def Gateway.settle (g : Gateway) (post : Settled) : Gateway × LoginResult :=
  (⟨(AuthProvider.login g.auth post).1, g.inFlight - 1⟩, (AuthProvider.login g.auth post).2)

/-- The role of a present identity is one of the three enumerated roles. -/
def knownRole (role : Option JSValue) : Bool :=
  match role with
  | some (.string r) => r = "ADMIN" || r = "DOCTOR" || r = "PATIENT"
  | _ => false
/-- The role invariant of a state: a present user has one of the three
roles, and so has every present identity that the text under the storage key
parses to. -/
def RoleInvariant (st : AuthState) : Prop :=
  (st.user.truthy = true → knownRole (st.user.get "role") = true) ∧
  (∀ (s : String) (v : JSValue), st.localStorage.getItem storageKey = some s →
    JSON.parse s = some v → v.truthy = true → knownRole (v.get "role") = true)

/-! ## Round trip of `JSON.stringify` and `JSON.parse` -/

namespace JSON

theorem digit_toNat (d : Nat) (h : d < 10) : (Char.ofNat (48 + d)).toNat = 48 + d := by
  interval_cases d <;> decide

theorem digit_isDigit (d : Nat) (h : d < 10) : isDigit (Char.ofNat (48 + d)) = true := by
  interval_cases d <;> decide

theorem digitsVal_append (xs : List Char) (c : Char) :
    digitsVal (xs ++ [c]) = digitsVal xs * 10 + (c.toNat - 48) := by
  simp [digitsVal, List.foldl_append]

theorem digitsVal_natDigits : ∀ (fuel n : Nat), n < fuel → digitsVal (natDigits fuel n) = n
  | 0, n, h => by omega
  | fuel + 1, n, h => by
    unfold natDigits
    split
    · rename_i h10
      simp [digitsVal, digit_toNat n h10]
    · rename_i h10
      rw [digitsVal_append, digitsVal_natDigits fuel (n / 10) (by omega),
        digit_toNat _ (Nat.mod_lt _ (by decide))]
      omega

theorem natDigits_isDigit : ∀ (fuel n : Nat), ∀ c ∈ natDigits fuel n, isDigit c = true
  | 0, _, c, hc => by simp [natDigits] at hc
  | fuel + 1, n, c, hc => by
    unfold natDigits at hc
    split at hc
    · rename_i h10
      simp at hc
      subst hc
      exact digit_isDigit n h10
    · simp at hc
      rcases hc with hc | hc
      · exact natDigits_isDigit fuel (n / 10) c hc
      · subst hc
        exact digit_isDigit _ (Nat.mod_lt _ (by decide))

theorem takeDigits_append (ds rest : List Char) (hds : ∀ c ∈ ds, isDigit c = true)
    (hr : ∀ c ∈ rest.head?, isDigit c = false) : takeDigits (ds ++ rest) = (ds, rest) := by
  induction ds with
  | nil =>
    cases rest with
    | nil => rfl
    | cons c cs =>
      have := hr c (by simp)
      simp [takeDigits, this]
  | cons d ds ih =>
    have hd := hds d (by simp)
    have := ih (fun c hc => hds c (by simp [hc]))
    simp [takeDigits, hd, this]

/-- The leading digit of a positive number is not zero. -/
theorem natDigits_head : ∀ (fuel n : Nat), n < fuel → 0 < n →
    ∃ d ds, natDigits fuel n = d :: ds ∧ d ≠ '0'
  | 0, n, h, _ => by omega
  | fuel + 1, n, h, hn => by
    unfold natDigits
    split
    · rename_i h10
      refine ⟨_, [], rfl, ?_⟩
      interval_cases n <;> decide
    · rename_i h10
      obtain ⟨d, ds, hd, hne⟩ := natDigits_head fuel (n / 10) (by omega) (by omega)
      exact ⟨d, ds ++ [_], by rw [hd]; rfl, hne⟩

theorem parseNat_renderNat (n : Nat) (rest : List Char) (hr : Delim rest) :
    parseNat (renderNat n ++ rest) = some (n, rest) := by
  have hdig : ∀ c ∈ rest.head?, isDigit c = false := by
    intro c hc
    rcases hr c hc with h | h | h <;> subst h <;> decide
  have htake := takeDigits_append (renderNat n) rest (natDigits_isDigit _ _) hdig
  have hval : digitsVal (renderNat n) = n := digitsVal_natDigits (n + 1) n (by omega)
  unfold parseNat
  rw [htake]
  rcases Nat.eq_zero_or_pos n with h0 | hpos
  · subst h0
    have : renderNat 0 = ['0'] := by decide
    rw [this] at hval ⊢
    cases rest with
    | nil => simp [hval]
    | cons c cs =>
      have hc := hr c (by simp)
      have : ¬ (c = '.' ∨ c = 'e' ∨ c = 'E') := by
        rcases hc with h | h | h <;> subst h <;> decide
      simp [this, hval]
  · obtain ⟨d, ds, hd, hne⟩ := natDigits_head (n + 1) n (by omega) hpos
    have hrn : renderNat n = d :: ds := hd
    rw [hrn] at hval ⊢
    cases rest with
    | nil => simp [hval, hne]
    | cons c cs =>
      have hc := hr c (by simp)
      have : ¬ (c = '.' ∨ c = 'e' ∨ c = 'E') := by
        rcases hc with h | h | h <;> subst h <;> decide
      simp [this, hval, hne]

theorem hex4_low (k : Nat) (h : k < 32) :
    hex4 '0' '0' (hexChar (k / 16)) (hexChar (k % 16)) = some k := by
  interval_cases k <;> decide

theorem parseStringBody_escape (e u : Char) (tl : List Char) (he : e ≠ 'u')
    (hu : unescape e = some u) :
    parseStringBody (backslash :: e :: tl) = consResult u (parseStringBody tl) := by
  rw [parseStringBody.eq_def]
  simp [show backslash ≠ dquote by decide, he, hu]
  cases parseStringBody tl <;> rfl

theorem parseStringBody_plain (c : Char) (tl : List Char) (h1 : c ≠ dquote)
    (h2 : c ≠ backslash) (h3 : ¬ c.toNat < 32) :
    parseStringBody (c :: tl) = consResult c (parseStringBody tl) := by
  rw [parseStringBody.eq_def]
  simp [h1, h2, h3]
  cases parseStringBody tl <;> rfl

theorem parseStringBody_control (k : Nat) (hk : k < 32) (tl : List Char) :
    parseStringBody
      (backslash :: 'u' :: '0' :: '0' :: hexChar (k / 16) :: hexChar (k % 16) :: tl)
      = consResult (Char.ofNat k) (parseStringBody tl) := by
  rw [parseStringBody.eq_def]
  simp [show backslash ≠ dquote by decide, hex4_low k hk]
  have : ¬ (55296 ≤ k ∧ k ≤ 57343) := by omega
  simp [this]
  cases parseStringBody tl <;> rfl

theorem parseStringBody_quoteChar (c : Char) (tl : List Char) :
    parseStringBody (quoteChar c ++ tl) = consResult c (parseStringBody tl) := by
  unfold quoteChar
  split
  · rename_i h; subst h
    exact parseStringBody_escape dquote dquote tl (by decide) (by decide)
  split
  · rename_i h; subst h
    exact parseStringBody_escape backslash backslash tl (by decide) (by decide)
  split
  · rename_i h; subst h
    exact parseStringBody_escape 'b' _ tl (by decide) (by decide)
  split
  · rename_i h; subst h
    exact parseStringBody_escape 'f' _ tl (by decide) (by decide)
  split
  · rename_i h; subst h
    exact parseStringBody_escape 'n' _ tl (by decide) (by decide)
  split
  · rename_i h; subst h
    exact parseStringBody_escape 'r' _ tl (by decide) (by decide)
  split
  · rename_i h; subst h
    exact parseStringBody_escape 't' _ tl (by decide) (by decide)
  split
  · rename_i h
    have := parseStringBody_control c.toNat h tl
    rw [Char.ofNat_toNat] at this
    exact this
  · rename_i h1 h2 _ _ _ _ _ h3
    exact parseStringBody_plain c tl h1 h2 h3

theorem parseStringBody_quoteBody (s rest : List Char) :
    parseStringBody (quoteBody s ++ dquote :: rest) = some (s, rest) := by
  induction s with
  | nil => rw [parseStringBody.eq_def]; simp [quoteBody]
  | cons c cs ih =>
    rw [quoteBody, List.append_assoc, parseStringBody_quoteChar, ih]
    rfl

theorem isDigit_head (d : Char) (h : isDigit d = true) :
    isWs d = false ∧ d ≠ '{' ∧ d ≠ '[' ∧ d ≠ dquote ∧ d ≠ 't' ∧ d ≠ 'f' ∧ d ≠ 'n' ∧ d ≠ '-'
      ∧ d ≠ ']' ∧ d ≠ '}' := by
  have h1 : 48 ≤ d.toNat ∧ d.toNat ≤ 57 := by simpa [isDigit] using h
  have key : ∀ e : Char, ¬ (48 ≤ e.toNat ∧ e.toNat ≤ 57) → d ≠ e := by
    intro e he hde
    exact he (hde ▸ h1)
  refine ⟨?_, key _ (by decide), key _ (by decide), key _ (by decide), key _ (by decide),
    key _ (by decide), key _ (by decide), key _ (by decide), key _ (by decide), key _ (by decide)⟩
  have a := key (Char.ofNat 32) (by decide)
  have b := key (Char.ofNat 9) (by decide)
  have c := key (Char.ofNat 10) (by decide)
  have e := key (Char.ofNat 13) (by decide)
  simp [isWs, a, b, c, e]

theorem renderNat_head (n : Nat) : ∃ d ds, renderNat n = d :: ds ∧ isDigit d = true := by
  have hall := natDigits_isDigit (n + 1) n
  unfold renderNat at *
  cases h : natDigits (n + 1) n with
  | nil =>
    unfold natDigits at h
    split at h <;> simp at h
  | cons d ds =>
    exact ⟨d, ds, rfl, hall d (by simp [h])⟩

/-- The rendering of a value starts with a character that is neither white
space nor a closing bracket. -/
theorem render_head (v : JSValue) :
    ∃ d tl, render v = d :: tl ∧ isWs d = false ∧ d ≠ ']' := by
  cases v with
  | null => exact ⟨_, _, by rw [render], by decide, by decide⟩
  | bool b =>
    cases b
    · exact ⟨_, _, by rw [render], by decide, by decide⟩
    · exact ⟨_, _, by rw [render], by decide, by decide⟩
  | number n =>
    cases n with
    | ofNat n =>
      obtain ⟨d, ds, hd, hdig⟩ := renderNat_head n
      have := isDigit_head d hdig
      exact ⟨d, ds, by rw [render, renderInt, hd], this.1, this.2.2.2.2.2.2.2.2.1⟩
    | negSucc n => exact ⟨'-', _, by rw [render, renderInt], by decide, by decide⟩
  | string s => exact ⟨dquote, _, by rw [render, quote], by decide, by decide⟩
  | array items => exact ⟨'[', _, by rw [render], by decide, by decide⟩
  | object fields => exact ⟨'{', _, by rw [render], by decide, by decide⟩

theorem renderItems_head (v : JSValue) (vs : List JSValue) (rest : List Char) :
    ∃ d tl, renderItems (v :: vs) ++ rest = d :: tl ∧ isWs d = false ∧ d ≠ ']' := by
  obtain ⟨d, tl, hd, hws, hne⟩ := render_head v
  cases vs with
  | nil => exact ⟨d, tl ++ rest, by simp [renderItems, hd], hws, hne⟩
  | cons w ws =>
    exact ⟨d, tl ++ ',' :: (renderItems (w :: ws) ++ rest), by simp [renderItems, hd], hws, hne⟩

theorem renderFields_head (f : String × JSValue) (fs : List (String × JSValue))
    (rest : List Char) : ∃ tl, renderFields (f :: fs) ++ rest = dquote :: tl := by
  obtain ⟨k, v⟩ := f
  cases fs with
  | nil => exact ⟨_, by simp only [renderFields, quote, List.cons_append]; rfl⟩
  | cons g gs => exact ⟨_, by simp only [renderFields, quote, List.cons_append]; rfl⟩

theorem parseValue_number (fuel : Nat) (n : Int) (rest : List Char) (hr : Delim rest) :
    parseValue (fuel + 1) (renderInt n ++ rest) = some (.number n, rest) := by
  cases n with
  | ofNat n =>
    obtain ⟨d, ds, hd, hdig⟩ := renderNat_head n
    have hh := isDigit_head d hdig
    have hp := parseNat_renderNat n rest hr
    rw [hd] at hp
    simp only [renderInt, hd, List.cons_append] at hp ⊢
    simp only [parseValue, skipWs, hh.1]
    simp [hh.2.1, hh.2.2.1, hh.2.2.2.1, hh.2.2.2.2.1, hh.2.2.2.2.2.1, hh.2.2.2.2.2.2.1,
      hh.2.2.2.2.2.2.2.1, hp]
  | negSucc n =>
    have hp := parseNat_renderNat (n + 1) rest hr
    simp only [renderInt, List.cons_append]
    simp only [parseValue, skipWs, show isWs '-' = false by decide]
    simp [dquote, hp]
    rw [Int.negSucc_eq]
    omega

mutual
theorem parseValue_render : ∀ (v : JSValue) (fuel : Nat) (rest : List Char),
    (render v).length < fuel → Delim rest →
    parseValue fuel (render v ++ rest) = some (v, rest)
  | _, 0, _, hf, _ => by omega
  | .null, fuel + 1, rest, _, _ => by
    simp [render, parseValue, skipWs, isWs, dquote]
  | .bool true, fuel + 1, rest, _, _ => by
    simp [render, parseValue, skipWs, isWs, dquote]
  | .bool false, fuel + 1, rest, _, _ => by
    simp [render, parseValue, skipWs, isWs, dquote]
  | .number n, fuel + 1, rest, _, hr => by
    rw [render]
    exact parseValue_number fuel n rest hr
  | .string s, fuel + 1, rest, _, _ => by
    have hb := parseStringBody_quoteBody s.data rest
    simp only [render, quote, List.cons_append, List.append_assoc, List.nil_append]
    simp only [parseValue, skipWs, show isWs dquote = false by decide]
    simp [show dquote ≠ '{' by decide, show dquote ≠ '[' by decide, hb]
  | .array [], fuel + 1, rest, _, _ => by
    simp [render, renderItems, parseValue, skipWs, isWs]
  | .array (v :: vs), fuel + 1, rest, hf, _ => by
    have hlen : (renderItems (v :: vs)).length + 1 < fuel := by
      simp [render] at hf
      omega
    have ih := parseElements_render (v :: vs) (by simp) fuel rest hlen
    obtain ⟨d, tl, hd, hws, hne⟩ := renderItems_head v vs (']' :: rest)
    simp only [render, List.cons_append, List.append_assoc, List.nil_append]
    rw [hd] at ih ⊢
    simp only [parseValue, skipWs, show isWs '[' = false by decide, hws]
    simp [skipWs, hws, hne, ih]
  | .object [], fuel + 1, rest, _, _ => by
    simp [render, renderFields, parseValue, skipWs, isWs]
  | .object (f :: fs), fuel + 1, rest, hf, _ => by
    have hlen : (renderFields (f :: fs)).length + 1 < fuel := by
      simp [render] at hf
      omega
    have ih := parseMembers_render (f :: fs) (by simp) fuel rest hlen
    obtain ⟨tl, hd⟩ := renderFields_head f fs ('}' :: rest)
    simp only [render, List.cons_append, List.append_assoc, List.nil_append]
    rw [hd] at ih ⊢
    simp only [parseValue, skipWs, show isWs '{' = false by decide]
    simp [skipWs, show isWs dquote = false by decide, show dquote ≠ '}' by decide, ih]
theorem parseElements_render : ∀ (items : List JSValue), items ≠ [] →
    ∀ (fuel : Nat) (rest : List Char), (renderItems items).length + 1 < fuel →
    parseElements fuel (renderItems items ++ ']' :: rest) = some (items, rest)
  | [], h, _, _, _ => absurd rfl h
  | _ :: _, _, 0, _, hf => by omega
  | [v], _, fuel + 1, rest, hf => by
    have hlen : (render v).length < fuel := by
      simp [renderItems] at hf
      omega
    have ih := parseValue_render v fuel (']' :: rest) hlen (by simp [Delim])
    simp only [renderItems]
    simp only [parseElements, ih, skipWs, show isWs ']' = false by decide]
    simp
  | v :: w :: vs, _, fuel + 1, rest, hf => by
    have hl : (renderItems (v :: w :: vs)).length
        = (render v).length + 1 + (renderItems (w :: vs)).length := by
      simp [renderItems]
      omega
    have hpos : 0 < (render v).length := by
      obtain ⟨d, tl, hd, _, _⟩ := render_head v
      simp [hd]
    have ih1 := parseValue_render v fuel (',' :: (renderItems (w :: vs) ++ ']' :: rest))
      (by omega) (by simp [Delim])
    have ih2 := parseElements_render (w :: vs) (by simp) fuel rest (by omega)
    have happ : renderItems (v :: w :: vs) ++ ']' :: rest
        = render v ++ ',' :: (renderItems (w :: vs) ++ ']' :: rest) := by
      simp [renderItems]
    rw [happ]
    simp only [parseElements, ih1, skipWs, show isWs ',' = false by decide]
    simp [ih2]
theorem parseMembers_render : ∀ (fields : List (String × JSValue)), fields ≠ [] →
    ∀ (fuel : Nat) (rest : List Char), (renderFields fields).length + 1 < fuel →
    parseMembers fuel (renderFields fields ++ '}' :: rest) = some (fields, rest)
  | [], h, _, _, _ => absurd rfl h
  | _ :: _, _, 0, _, hf => by omega
  | [(k, v)], _, fuel + 1, rest, hf => by
    have hlen : (render v).length < fuel := by
      simp [renderFields] at hf
      omega
    have ih := parseValue_render v fuel ('}' :: rest) hlen (by simp [Delim])
    have hb := parseStringBody_quoteBody k.data (':' :: (render v ++ '}' :: rest))
    have happ : renderFields [(k, v)] ++ '}' :: rest
        = dquote :: (quoteBody k.data ++ dquote :: ':' :: (render v ++ '}' :: rest)) := by
      simp [renderFields, quote]
    rw [happ]
    simp only [parseMembers, skipWs, show isWs dquote = false by decide]
    simp [hb, skipWs, show isWs ':' = false by decide, ih, show isWs '}' = false by decide]
  | (k, v) :: g :: gs, _, fuel + 1, rest, hf => by
    have hl : (renderFields ((k, v) :: g :: gs)).length
        = (quote k).length + 1 + (render v).length + 1 + (renderFields (g :: gs)).length := by
      simp [renderFields]
      omega
    have ih1 := parseValue_render v fuel (',' :: (renderFields (g :: gs) ++ '}' :: rest))
      (by omega) (by simp [Delim])
    have ih2 := parseMembers_render (g :: gs) (by simp) fuel rest (by omega)
    have hb := parseStringBody_quoteBody k.data
      (':' :: (render v ++ ',' :: (renderFields (g :: gs) ++ '}' :: rest)))
    have happ : renderFields ((k, v) :: g :: gs) ++ '}' :: rest
        = dquote :: (quoteBody k.data ++ dquote :: ':' ::
            (render v ++ ',' :: (renderFields (g :: gs) ++ '}' :: rest))) := by
      simp [renderFields, quote]
    rw [happ]
    simp only [parseMembers, skipWs, show isWs dquote = false by decide]
    simp [hb, skipWs, show isWs ':' = false by decide, ih1, show isWs ',' = false by decide, ih2]
end

/-- `JSON.parse(JSON.stringify(v))` gives back `v`. -/
theorem parse_stringify (v : JSValue) : parse (stringify v) = some v := by
  have h := parseValue_render v ((render v).length + 1) [] (by omega) (by simp [Delim])
  rw [List.append_nil] at h
  simp [parse, stringify, String.length, h, skipWs]

end JSON

/-! ## The route guard -/

theorem includes_iff (allowedRoles : List String) (role : Option JSValue) :
    includes allowedRoles role = true ↔ ∃ r ∈ allowedRoles, role = some (.string r) := by
  unfold includes
  split
  · rename_i r
    simp
  · rename_i h
    simp only [Bool.false_eq_true, false_iff, not_exists, not_and]
    intro r _ hr
    exact h r hr

theorem protectedRoute_not_loading (allowedRoles : List String) (user : JSValue)
    (huser : user.truthy = true) :
    ProtectedRoute allowedRoles user false =
      if allowedRoles ≠ [] ∧ includes allowedRoles (user.get "role") = false then
        .navigate (roleRedirect (user.get "role"))
      else .children := by
  unfold ProtectedRoute
  cases allowedRoles with
  | nil => simp [huser]
  | cons a as => simp [huser]

theorem protectedRoute_children_cond (allowedRoles : List String) (user : JSValue)
    (loading : Bool) :
    ProtectedRoute allowedRoles user loading = .children ↔
      loading = false ∧ user.truthy = true ∧
        (allowedRoles = [] ∨ ∃ r ∈ allowedRoles, user.get "role" = some (.string r)) := by
  cases loading with
  | true => simp [ProtectedRoute]
  | false =>
    cases huser : user.truthy with
    | false => simp [ProtectedRoute, huser]
    | true =>
      rw [protectedRoute_not_loading allowedRoles user huser, ← includes_iff]
      by_cases hnil : allowedRoles = []
      · simp [hnil]
      · cases hinc : includes allowedRoles (user.get "role") <;> simp [hnil]

/-- Claim C1.  `ProtectedRoute` returns its children exactly when `loading` is
false, the user is present (truthy), and `allowedRoles` is empty or contains
the role of the user; in particular a user whose role is `ADMIN` is rendered
for every `allowedRoles` list that contains `ADMIN`. -/
theorem protectedRoute_children_iff (allowedRoles : List String) (user : JSValue)
    (loading : Bool) :
    (ProtectedRoute allowedRoles user loading = .children ↔
      loading = false ∧ user.truthy = true ∧
        (allowedRoles = [] ∨ ∃ r ∈ allowedRoles, user.get "role" = some (.string r))) ∧
    (loading = false → user.truthy = true → user.get "role" = some (.string "ADMIN") →
      "ADMIN" ∈ allowedRoles → ProtectedRoute allowedRoles user loading = .children) := by
  have main := protectedRoute_children_cond allowedRoles user loading
  exact ⟨main, fun hl hu hr hmem => main.2 ⟨hl, hu, Or.inr ⟨"ADMIN", hmem, hr⟩⟩⟩

/-- Witness of C1: an `ADMIN` identity against `['DOCTOR','ADMIN']`. -/
theorem protectedRoute_children_iff_witness :
    ProtectedRoute ["DOCTOR", "ADMIN"] (identityOf "ADMIN") false = .children :=
  (protectedRoute_children_iff ["DOCTOR", "ADMIN"] (identityOf "ADMIN") false).2
    rfl rfl rfl (by simp)

/-- Claim C2.  With `loading` false and no user in the session (`user` is
`null`), `ProtectedRoute` redirects to `/login` for every `allowedRoles` list,
and so does not render its children. -/
theorem protectedRoute_absent_user (allowedRoles : List String) :
    ProtectedRoute allowedRoles .null false = .navigate "/login" ∧
    ProtectedRoute allowedRoles .null false ≠ .children := by
  have h : ProtectedRoute allowedRoles .null false = .navigate "/login" := by
    simp [ProtectedRoute, JSValue.truthy]
  exact ⟨h, by rw [h]; simp⟩

theorem protectedRoute_mismatch (allowedRoles : List String) (user : JSValue) (R : String)
    (huser : user.truthy = true) (hrole : user.get "role" = some (.string R))
    (hne : allowedRoles ≠ []) (hnot : R ∉ allowedRoles) :
    ProtectedRoute allowedRoles user false = .navigate (roleRedirect (some (.string R))) := by
  rw [protectedRoute_not_loading allowedRoles user huser, hrole]
  have : includes allowedRoles (some (.string R)) = false := by
    simp [includes, hnot]
  simp [hne, this]

/-- Claim C3.  For a user of role `R` with `loading` false and a non-empty
`allowedRoles` list that does not contain `R`, `ProtectedRoute` redirects to
`/admin/dashboard` when `R` is `ADMIN`, to `/doctor/dashboard` when `R` is
`DOCTOR` and to `/patient/dashboard` when `R` is `PATIENT`; the outcome is the
same for every other user of role `R` and every other such list. -/
theorem protectedRoute_mismatch_redirect (allowedRoles : List String) (user : JSValue)
    (R : String) (huser : user.truthy = true) (hrole : user.get "role" = some (.string R))
    (hne : allowedRoles ≠ []) (hnot : R ∉ allowedRoles) :
    (R = "ADMIN" → ProtectedRoute allowedRoles user false = .navigate "/admin/dashboard") ∧
    (R = "DOCTOR" → ProtectedRoute allowedRoles user false = .navigate "/doctor/dashboard") ∧
    (R = "PATIENT" → ProtectedRoute allowedRoles user false = .navigate "/patient/dashboard") ∧
    (∀ (allowedRoles' : List String) (user' : JSValue), user'.truthy = true →
      user'.get "role" = some (.string R) → allowedRoles' ≠ [] → R ∉ allowedRoles' →
      ProtectedRoute allowedRoles' user' false = ProtectedRoute allowedRoles user false) := by
  have h := protectedRoute_mismatch allowedRoles user R huser hrole hne hnot
  refine ⟨?_, ?_, ?_, ?_⟩
  · intro hR
    rw [h, hR]
    rfl
  · intro hR
    rw [h, hR]
    rfl
  · intro hR
    rw [h, hR]
    rfl
  · intro roles' user' hu' hr' hne' hnot'
    rw [h, protectedRoute_mismatch roles' user' R hu' hr' hne' hnot']

/-- Witness of C3: a `PATIENT` identity against `['ADMIN']`. -/
theorem protectedRoute_mismatch_redirect_witness :
    ProtectedRoute ["ADMIN"] (identityOf "PATIENT") false = .navigate "/patient/dashboard" :=
  (protectedRoute_mismatch_redirect ["ADMIN"] (identityOf "PATIENT") "PATIENT" rfl rfl
    (by simp) (by decide)).2.2.1 rfl

/-- Claim C4.  While `loading` is true `ProtectedRoute` returns the loading
placeholder, whatever the user and the `allowedRoles` list: it neither renders
its children nor redirects. -/
theorem protectedRoute_loading (allowedRoles : List String) (user : JSValue) :
    ProtectedRoute allowedRoles user true = .loading ∧
    ProtectedRoute allowedRoles user true ≠ .children ∧
    ∀ target : String, ProtectedRoute allowedRoles user true ≠ .navigate target := by
  have h : ProtectedRoute allowedRoles user true = .loading := by
    simp [ProtectedRoute]
  refine ⟨h, by rw [h]; simp, fun target => by rw [h]; simp⟩

/-- Counterexample to C5: a user whose role is the unrecognized `NURSE` is
rendered the children when `allowedRoles` is empty, and when it contains
`NURSE`, whereas an absent user is sent to `/login`. -/
theorem protectedRoute_unknown_role_counterexample :
    ProtectedRoute [] (identityOf "NURSE") false = .children ∧
    ProtectedRoute ["NURSE"] (identityOf "NURSE") false = .children ∧
    ProtectedRoute [] .null false = .navigate "/login" := by
  refine ⟨rfl, rfl, rfl⟩

/-- Claim C5, amended.  For a user whose role is none of `ADMIN`, `DOCTOR`,
`PATIENT`, with `loading` false: against a non-empty `allowedRoles` list that
does not contain the role, `ProtectedRoute` redirects to `/login` and does not
render its children; against an empty list, or a list that contains the role,
it renders its children. -/
theorem protectedRoute_unknown_role (allowedRoles : List String) (user : JSValue)
    (huser : user.truthy = true)
    (hA : user.get "role" ≠ some (.string "ADMIN"))
    (hD : user.get "role" ≠ some (.string "DOCTOR"))
    (hP : user.get "role" ≠ some (.string "PATIENT")) :
    (allowedRoles ≠ [] → (∀ r ∈ allowedRoles, user.get "role" ≠ some (.string r)) →
      ProtectedRoute allowedRoles user false = .navigate "/login") ∧
    ((allowedRoles = [] ∨ ∃ r ∈ allowedRoles, user.get "role" = some (.string r)) →
      ProtectedRoute allowedRoles user false = .children) := by
  constructor
  · intro hne hnot
    have hinc : includes allowedRoles (user.get "role") = false := by
      cases h : includes allowedRoles (user.get "role") with
      | false => rfl
      | true =>
        obtain ⟨r, hr, hrole⟩ := (includes_iff _ _).1 h
        exact absurd hrole (hnot r hr)
    rw [protectedRoute_not_loading allowedRoles user huser]
    simp only [hne, hinc, ne_eq, not_false_eq_true, and_self, if_true]
    have : roleRedirect (user.get "role") = "/login" := by
      unfold roleRedirect
      split
      · rename_i r hr
        have h1 : r ≠ "ADMIN" := fun h => hA (by rw [hr, h])
        have h2 : r ≠ "DOCTOR" := fun h => hD (by rw [hr, h])
        have h3 : r ≠ "PATIENT" := fun h => hP (by rw [hr, h])
        simp [h1, h2, h3]
      · rfl
    rw [this]
  · intro h
    exact (protectedRoute_children_cond allowedRoles user false).2 ⟨rfl, huser, h⟩

/-- Witness of C5 amended: a `NURSE` identity against `['ADMIN']`. -/
theorem protectedRoute_unknown_role_witness :
    ProtectedRoute ["ADMIN"] (identityOf "NURSE") false = .navigate "/login" :=
  (protectedRoute_unknown_role ["ADMIN"] (identityOf "NURSE") rfl
    (by simp [identityOf, JSValue.get, lookup]) (by simp [identityOf, JSValue.get, lookup])
    (by simp [identityOf, JSValue.get, lookup])).1 (by simp)
    (by simp [identityOf, JSValue.get, lookup])

/-! ## The auth context -/

theorem stringify_ne_empty (v : JSValue) : (JSON.stringify v != "") = true := by
  obtain ⟨d, tl, hd, _, _⟩ := JSON.render_head v
  have : JSON.stringify v ≠ "" := by
    intro h
    have h2 := congrArg String.data h
    simp [JSON.stringify, hd] at h2
  simpa using this

theorem login_truthy (st : AuthState) (p : JSValue)
    (h : truthy? (p.get "success") = true) :
    AuthProvider.login st (.resolved p) =
      (⟨p, st.loading, st.localStorage.setItem storageKey (JSON.stringify p)⟩,
        ⟨true, none⟩) := by
  cases p <;> simp_all [AuthProvider.login, authService.login, getProp, JSValue.get, truthy?]

theorem login_falsy (st : AuthState) (p : JSValue)
    (h : truthy? (p.get "success") = false) :
    (AuthProvider.login st (.resolved p)).1 = st ∧
    (AuthProvider.login st (.resolved p)).2.success = false := by
  cases p <;> simp_all [AuthProvider.login, authService.login, getProp, JSValue.get, truthy?]

theorem login_rejected (st : AuthState) :
    AuthProvider.login st .rejected = (st, ⟨false, some (.string loginFailedMessage)⟩) := by
  simp [AuthProvider.login, authService.login]

/-- Claim C6.  For every prior state and every backend response `p` whose
`success` field is `true`, `AuthProvider.login` sets the user to `p`, writes
`JSON.stringify(p)` under the storage key, and returns a success result. -/
theorem login_success (st : AuthState) (p : JSValue)
    (h : p.get "success" = some (.bool true)) :
    (AuthProvider.login st (.resolved p)).1.user = p ∧
    (AuthProvider.login st (.resolved p)).1.localStorage.getItem storageKey
      = some (JSON.stringify p) ∧
    (AuthProvider.login st (.resolved p)).2.success = true := by
  rw [login_truthy st p (by rw [h]; rfl)]
  simp [Storage.getItem, Storage.setItem]

/-- Witness of C6: the doctor payload on a fresh process. -/
theorem login_success_witness :
    (AuthProvider.login (AuthState.fresh emptyStorage) (.resolved doctorPayload)).1.user
      = doctorPayload :=
  (login_success (AuthState.fresh emptyStorage) doctorPayload rfl).1

/-- Claim C7.  A failed login leaves the state as it was: when the POST is
rejected, when the response has a falsy `success`, and generally whenever the
returned result has `success` false, the user cell, the loading cell and the
browser store after `AuthProvider.login` are those before it. -/
theorem login_failure_unchanged :
    (∀ st : AuthState, (AuthProvider.login st .rejected).1 = st ∧
      (AuthProvider.login st .rejected).2.success = false) ∧
    (∀ (st : AuthState) (p : JSValue), truthy? (p.get "success") = false →
      (AuthProvider.login st (.resolved p)).1 = st ∧
      (AuthProvider.login st (.resolved p)).2.success = false) ∧
    (∀ (st : AuthState) (post : Settled), (AuthProvider.login st post).2.success = false →
      (AuthProvider.login st post).1 = st) := by
  refine ⟨fun st => ?_, login_falsy, fun st post hfail => ?_⟩
  · rw [login_rejected]
    exact ⟨rfl, rfl⟩
  · cases post with
    | rejected => rw [login_rejected]
    | resolved p =>
      cases ht : truthy? (p.get "success") with
      | false => exact (login_falsy st p ht).1
      | true =>
        rw [login_truthy st p ht] at hfail
        simp at hfail

/-- Witness of C7: a refused login on a session that already holds a doctor. -/
theorem login_failure_unchanged_witness :
    (AuthProvider.login ⟨doctorPayload, false, emptyStorage⟩ (.resolved refusedPayload)).1
      = ⟨doctorPayload, false, emptyStorage⟩ :=
  (login_failure_unchanged.2.1 ⟨doctorPayload, false, emptyStorage⟩ refusedPayload rfl).1

/-- Counterexample to C8: for a response with `success` false and no
`message`, the message of the returned result is missing (`undefined`); for a
response whose `message` is the empty string, it is the empty string. -/
theorem login_message_counterexample :
    (AuthProvider.login (AuthState.fresh emptyStorage)
      (.resolved (.object [("success", .bool false)]))).2.message = none ∧
    (AuthProvider.login (AuthState.fresh emptyStorage)
      (.resolved (.object [("success", .bool false), ("message", .string "")]))).2.message
      = some (.string "") := by
  exact ⟨rfl, rfl⟩

/-- Claim C8, amended.  A failed login returns a failure result: for a
response (other than `null`) with a falsy `success` its message is the
`message` of the response, verbatim, and missing when the response has none;
for a rejected POST and for a `null` response it is the fixed non-empty
message `Login failed. Please try again.`. -/
theorem login_failure_message :
    (∀ (st : AuthState) (p : JSValue), p ≠ .null → truthy? (p.get "success") = false →
      (AuthProvider.login st (.resolved p)).2.success = false ∧
      (AuthProvider.login st (.resolved p)).2.message = p.get "message") ∧
    (∀ st : AuthState, (AuthProvider.login st .rejected).2.success = false ∧
      (AuthProvider.login st .rejected).2.message
        = some (.string "Login failed. Please try again.")) ∧
    (∀ st : AuthState, (AuthProvider.login st (.resolved .null)).2.success = false ∧
      (AuthProvider.login st (.resolved .null)).2.message
        = some (.string "Login failed. Please try again.")) := by
  refine ⟨fun st p hp h => ?_, fun st => ?_, fun st => ?_⟩
  · cases p <;> simp_all [AuthProvider.login, authService.login, getProp, JSValue.get, truthy?]
  · rw [login_rejected]
    exact ⟨rfl, rfl⟩
  · exact ⟨rfl, rfl⟩

/-- Witness of C8 amended: the refused login returns its message verbatim. -/
theorem login_failure_message_witness :
    (AuthProvider.login (AuthState.fresh emptyStorage) (.resolved refusedPayload)).2.message
      = some (.string "Invalid credentials") :=
  (login_failure_message.1 (AuthState.fresh emptyStorage) refusedPayload
    (by simp [refusedPayload]) rfl).2

/-- Claim C9.  After a successful login with payload `p` the storage key holds
`JSON.stringify(p)`, which parses back to `p`, and the startup effect of a
fresh process (user `null`, loading `true`) over that store ends with user `p`
and loading false. -/
theorem login_startup_roundtrip (st : AuthState) (p : JSValue)
    (h : p.get "success" = some (.bool true)) :
    (AuthProvider.login st (.resolved p)).1.localStorage.getItem storageKey
      = some (JSON.stringify p) ∧
    JSON.parse (JSON.stringify p) = some p ∧
    AuthProvider.startupEffect
        (AuthState.fresh (AuthProvider.login st (.resolved p)).1.localStorage)
      = .ok ⟨p, false, (AuthProvider.login st (.resolved p)).1.localStorage⟩ := by
  have hslot : (AuthProvider.login st (.resolved p)).1.localStorage.getItem storageKey
      = some (JSON.stringify p) := by
    rw [login_truthy st p (by rw [h]; rfl)]
    simp [Storage.getItem, Storage.setItem]
  refine ⟨hslot, JSON.parse_stringify p, ?_⟩
  unfold AuthProvider.startupEffect
  simp only [AuthState.fresh, hslot, stringify_ne_empty p, JSON.parse_stringify p, if_true]

/-- Witness of C9: the doctor payload survives login and restart. -/
theorem login_startup_roundtrip_witness :
    AuthProvider.startupEffect
        (AuthState.fresh
          (AuthProvider.login (AuthState.fresh emptyStorage)
            (.resolved doctorPayload)).1.localStorage)
      = .ok ⟨doctorPayload, false,
          (AuthProvider.login (AuthState.fresh emptyStorage)
            (.resolved doctorPayload)).1.localStorage⟩ :=
  (login_startup_roundtrip (AuthState.fresh emptyStorage) doctorPayload rfl).2.2

/-- Claim C10.  For every prior state and both outcomes of the POST to
`/api/auth/logout`, after `AuthProvider.logout` the user is `null`, the
storage key is removed, and the promise of `authService.logout` resolves, so
that no error reaches the caller. -/
theorem logout_always_clears (st : AuthState) (post : Settled) :
    (AuthProvider.logout st post).1.user = .null ∧
    (AuthProvider.logout st post).1.localStorage.getItem storageKey = none ∧
    (AuthProvider.logout st post).2 = .ok () := by
  refine ⟨rfl, ?_, ?_⟩
  · simp [AuthProvider.logout, Storage.getItem, Storage.removeItem]
  · cases post <;> rfl

/-! ## The startup effect -/

theorem startup_missing (st : AuthState) (h : st.localStorage.getItem storageKey = none) :
    AuthProvider.startupEffect st = .ok ⟨st.user, false, st.localStorage⟩ := by
  simp [AuthProvider.startupEffect, h]

theorem startup_parsed (st : AuthState) (s : String) (v : JSValue)
    (h : st.localStorage.getItem storageKey = some s) (hs : (s != "") = true)
    (hv : JSON.parse s = some v) :
    AuthProvider.startupEffect st = .ok ⟨v, false, st.localStorage⟩ := by
  unfold AuthProvider.startupEffect
  simp only [h, hs, hv, if_true]

theorem startup_unparsable (st : AuthState) (s : String)
    (h : st.localStorage.getItem storageKey = some s) (hs : (s != "") = true)
    (hv : JSON.parse s = none) :
    AuthProvider.startupEffect st = .error .syntaxError := by
  unfold AuthProvider.startupEffect
  simp only [h, hs, hv, if_true]

theorem startup_empty (st : AuthState) (h : st.localStorage.getItem storageKey = some "") :
    AuthProvider.startupEffect st = .ok ⟨st.user, false, st.localStorage⟩ := by
  unfold AuthProvider.startupEffect
  simp [h]

/-- Claim C11.  From the initial session (user `null`, loading `true`): when
the storage key is missing the startup effect ends with user `null` and
loading false; when it holds `JSON.stringify(v)` for an identity `v` the
startup effect ends with user `v` and loading false. -/
theorem startup_wellformed :
    (∀ store : Storage, store.getItem storageKey = none →
      AuthProvider.startupEffect (AuthState.fresh store) = .ok ⟨.null, false, store⟩) ∧
    (∀ (store : Storage) (v : JSValue),
      store.getItem storageKey = some (JSON.stringify v) →
      AuthProvider.startupEffect (AuthState.fresh store) = .ok ⟨v, false, store⟩) := by
  constructor
  · intro store h
    exact startup_missing (AuthState.fresh store) h
  · intro store v h
    exact startup_parsed (AuthState.fresh store) (JSON.stringify v) v h
      (stringify_ne_empty v) (JSON.parse_stringify v)

/-- Witness of C11: the empty store, and a store that holds the doctor. -/
theorem startup_wellformed_witness :
    AuthProvider.startupEffect (AuthState.fresh emptyStorage)
      = .ok ⟨.null, false, emptyStorage⟩ ∧
    AuthProvider.startupEffect
        (AuthState.fresh (emptyStorage.setItem storageKey (JSON.stringify doctorPayload)))
      = .ok ⟨doctorPayload, false,
          emptyStorage.setItem storageKey (JSON.stringify doctorPayload)⟩ :=
  ⟨startup_wellformed.1 emptyStorage rfl,
    startup_wellformed.2 (emptyStorage.setItem storageKey (JSON.stringify doctorPayload))
      doctorPayload (by simp [Storage.getItem, Storage.setItem])⟩

/-- Claim C12, the code at the failing input.  With the text `not json` under
the storage key, the startup effect of a fresh process throws the
`SyntaxError` of `JSON.parse`; nothing is written, so that loading is still
true afterwards. -/
theorem startup_not_json_throws :
    AuthProvider.startupEffect
        (AuthState.fresh (emptyStorage.setItem storageKey "not json"))
      = .error .syntaxError ∧
    (AuthProvider.step (AuthState.fresh (emptyStorage.setItem storageKey "not json"))
      .startup).loading = true := by
  have h : AuthProvider.startupEffect
      (AuthState.fresh (emptyStorage.setItem storageKey "not json"))
      = .error .syntaxError :=
    startup_unparsable _ "not json" (by simp [AuthState.fresh, Storage.getItem, Storage.setItem])
      (by decide) (by rfl)
  refine ⟨h, ?_⟩
  simp only [AuthProvider.step, h]
  rfl

/-! ## Sequences of operations -/

theorem startup_ok_loading (st st' : AuthState)
    (h : AuthProvider.startupEffect st = .ok st') : st'.loading = false := by
  unfold AuthProvider.startupEffect at h
  split at h
  · cases h; rfl
  · split at h
    · split at h
      · cases h
      · cases h; rfl
    · cases h; rfl

theorem login_loading (st : AuthState) (post : Settled) :
    (AuthProvider.login st post).1.loading = st.loading := by
  cases post with
  | rejected => rw [login_rejected]
  | resolved p =>
    cases ht : truthy? (p.get "success") with
    | false => rw [(login_falsy st p ht).1]
    | true => rw [login_truthy st p ht]

theorem step_loading (st : AuthState) (e : Event) (h : st.loading = false) :
    (AuthProvider.step st e).loading = false := by
  cases e with
  | startup =>
    unfold AuthProvider.step
    cases hs : AuthProvider.startupEffect st with
    | error err => exact h
    | ok st' => exact startup_ok_loading st st' hs
  | login post => exact (login_loading st post).trans h
  | logout post => exact h

theorem run_loading (events : List Event) :
    ∀ st : AuthState, st.loading = false → (AuthProvider.run st events).loading = false := by
  induction events with
  | nil => intro st h; exact h
  | cons e es ih =>
    intro st h
    exact ih (AuthProvider.step st e) (step_loading st e h)

/-- Claim C13.  In every state of a session, that is the initial state and the
state after the startup effect followed by any sequence of logins (successful
or failed) and logouts, a present user implies that loading is false: before
the startup effect the user is absent, and once it has completed loading is
false and stays false. -/
theorem session_invariant (store : Storage) (calls : List Call) :
    ((AuthState.fresh store).user.truthy = true → (AuthState.fresh store).loading = false) ∧
    ((AuthProvider.session store calls).user.truthy = true →
      (AuthProvider.session store calls).loading = false) ∧
    (∀ st : AuthState, AuthProvider.startupEffect (AuthState.fresh store) = .ok st →
      (AuthProvider.session store calls).loading = false) := by
  refine ⟨?_, ?_, ?_⟩
  · intro h
    simp [AuthState.fresh, JSValue.truthy] at h
  · unfold AuthProvider.session
    cases hs : AuthProvider.startupEffect (AuthState.fresh store) with
    | error err =>
      intro h
      simp [AuthState.fresh, JSValue.truthy] at h
    | ok st =>
      intro _
      exact run_loading _ st (startup_ok_loading _ _ hs)
  · intro st hs
    unfold AuthProvider.session
    rw [hs]
    exact run_loading _ st (startup_ok_loading _ _ hs)

/-- Witness of C13: a session on the empty store in which a doctor logs in. -/
theorem session_invariant_witness :
    (AuthProvider.session emptyStorage [.login (.resolved doctorPayload)]).loading = false :=
  (session_invariant emptyStorage [.login (.resolved doctorPayload)]).2.1 rfl

/-! ## The route table -/

theorem lookup_mem {β : Type} (k : String) (v : β) :
    ∀ l : List (String × β), l.lookup k = some v → (k, v) ∈ l
  | [], h => by simp [List.lookup] at h
  | (a, b) :: es, h => by
    rw [List.lookup] at h
    cases hk : (k == a) with
    | true =>
      rw [hk] at h
      have hka : k = a := by simpa using hk
      cases h
      simp [hka]
    | false =>
      rw [hk] at h
      exact List.mem_cons_of_mem _ (lookup_mem k v es h)

theorem allowedRolesOf_nonempty (path : String) (roles : List String)
    (h : App.allowedRolesOf path = some roles) : roles ≠ [] := by
  unfold App.allowedRolesOf at h
  split at h
  · rename_i allowedRoles page hl
    cases h
    have hmem := lookup_mem path _ App.routes hl
    have hall : ∀ e ∈ App.routes, ∀ rs pg, e.2 = RouteElement.guarded rs pg → rs ≠ [] := by
      simp [App.routes]
    exact hall _ hmem roles page rfl
  · cases h

theorem protectedRoute_role_iff (allowedRoles : List String) (user : JSValue) (R : String)
    (hne : allowedRoles ≠ []) (huser : user.truthy = true)
    (hrole : user.get "role" = some (.string R)) :
    ProtectedRoute allowedRoles user false = .children ↔ R ∈ allowedRoles := by
  rw [protectedRoute_children_cond, hrole]
  simp [huser, hne]

/-- Claim C14.  The guarded routes of `App.js` are the eleven listed paths;
the five `/admin` paths allow `ADMIN` only, the three `/doctor` paths allow
`DOCTOR` and `ADMIN`, the three `/patient` paths allow `PATIENT` and `ADMIN`;
and on each guarded route, with loading false and a user of role `R` among the
three, the guard renders the page exactly when `R` is in the list of the
route. -/
theorem route_table_gates :
    (App.routes.filterMap (fun e =>
        match e.2 with
        | .guarded _ _ => some e.1
        | _ => none)
      = ["/admin/dashboard", "/admin/users", "/admin/patients", "/admin/doctors",
          "/admin/appointments", "/doctor/dashboard", "/doctor/appointments",
          "/doctor/patients", "/patient/dashboard", "/patient/book-appointment",
          "/patient/medical-history"]) ∧
    (∀ path ∈ ["/admin/dashboard", "/admin/users", "/admin/patients", "/admin/doctors",
        "/admin/appointments"], App.allowedRolesOf path = some ["ADMIN"]) ∧
    (∀ path ∈ ["/doctor/dashboard", "/doctor/appointments", "/doctor/patients"],
      App.allowedRolesOf path = some ["DOCTOR", "ADMIN"]) ∧
    (∀ path ∈ ["/patient/dashboard", "/patient/book-appointment", "/patient/medical-history"],
      App.allowedRolesOf path = some ["PATIENT", "ADMIN"]) ∧
    (∀ (path : String) (roles : List String), App.allowedRolesOf path = some roles →
      ∀ R ∈ ["ADMIN", "DOCTOR", "PATIENT"], ∀ user : JSValue, user.truthy = true →
        user.get "role" = some (.string R) →
        (App.guard path user false = some .children ↔ R ∈ roles)) := by
  refine ⟨by decide, by decide, by decide, by decide, ?_⟩
  intro path roles hroles R _ user huser hrole
  have hne := allowedRolesOf_nonempty path roles hroles
  simp only [App.guard, hroles, Option.some.injEq]
  exact protectedRoute_role_iff roles user R hne huser hrole

/-- Witness of C14: a doctor is rendered `/doctor/patients` and is not
rendered `/admin/users`. -/
theorem route_table_gates_witness :
    (App.guard "/doctor/patients" (identityOf "DOCTOR") false = some .children ↔
      "DOCTOR" ∈ ["DOCTOR", "ADMIN"]) ∧
    (App.guard "/admin/users" (identityOf "DOCTOR") false = some .children ↔
      "DOCTOR" ∈ ["ADMIN"]) :=
  ⟨route_table_gates.2.2.2.2 "/doctor/patients" ["DOCTOR", "ADMIN"] (by decide) "DOCTOR"
      (by decide) (identityOf "DOCTOR") rfl rfl,
    route_table_gates.2.2.2.2 "/admin/users" ["ADMIN"] (by decide) "DOCTOR"
      (by decide) (identityOf "DOCTOR") rfl rfl⟩

/-! ## The login form -/

theorem readBack_after_setItem (store : Storage) (p : JSValue) :
    Login.readBack (store.setItem storageKey (JSON.stringify p)) = .ok p := by
  simp [Login.readBack, Storage.getItem, Storage.setItem, JSON.parse_stringify]

theorem getProp_of_truthy (p : JSValue) (k : String)
    (h : truthy? (p.get "success") = true) : getProp p k = .ok (p.get k) := by
  cases p <;> simp_all [getProp, JSValue.get, truthy?]

theorem handleSubmit_success (st : AuthState) (form : LoginForm) (p : JSValue)
    (h : truthy? (p.get "success") = true) :
    Login.handleSubmit st form (.resolved p) =
      ⟨⟨p, st.loading, st.localStorage.setItem storageKey (JSON.stringify p)⟩,
        ⟨.string "", false, some (Login.dashboardOf (p.get "role"))⟩, none⟩ := by
  unfold Login.handleSubmit Login.submitResume
  rw [login_truthy st p h]
  simp only [if_true, readBack_after_setItem, getProp_of_truthy p "role" h, Login.submitStart]

/-- Claim C15.  After a successful login whose payload has role `R` among
`ADMIN`, `DOCTOR`, `PATIENT`, on a session whose loading is false,
`handleSubmit` ends without an error, the user is the payload, the form has
navigated to the dashboard of `R`, and the guard declared on that path in
`App.js` renders its page for that user. -/
theorem login_lands_on_dashboard (st : AuthState) (form : LoginForm) (p : JSValue)
    (R : String) (hload : st.loading = false)
    (hsucc : p.get "success" = some (.bool true))
    (hrole : p.get "role" = some (.string R)) :
    (Login.handleSubmit st form (.resolved p)).thrown = none ∧
    (Login.handleSubmit st form (.resolved p)).auth.user = p ∧
    (R = "ADMIN" →
      (Login.handleSubmit st form (.resolved p)).form.navigated = some "/admin/dashboard" ∧
      App.guard "/admin/dashboard" (Login.handleSubmit st form (.resolved p)).auth.user
        (Login.handleSubmit st form (.resolved p)).auth.loading = some .children) ∧
    (R = "DOCTOR" →
      (Login.handleSubmit st form (.resolved p)).form.navigated = some "/doctor/dashboard" ∧
      App.guard "/doctor/dashboard" (Login.handleSubmit st form (.resolved p)).auth.user
        (Login.handleSubmit st form (.resolved p)).auth.loading = some .children) ∧
    (R = "PATIENT" →
      (Login.handleSubmit st form (.resolved p)).form.navigated = some "/patient/dashboard" ∧
      App.guard "/patient/dashboard" (Login.handleSubmit st form (.resolved p)).auth.user
        (Login.handleSubmit st form (.resolved p)).auth.loading = some .children) := by
  have ht : truthy? (p.get "success") = true := by rw [hsucc]; rfl
  have hp : p.truthy = true := by
    cases p <;> simp_all [JSValue.get, JSValue.truthy]
  rw [handleSubmit_success st form p ht]
  simp only [hload, hrole, true_and]
  refine ⟨?_, ?_, ?_⟩
  · intro hR
    subst hR
    refine ⟨rfl, ?_⟩
    have : App.allowedRolesOf "/admin/dashboard" = some ["ADMIN"] := by decide
    simp only [App.guard, this, Option.some.injEq]
    exact (protectedRoute_role_iff ["ADMIN"] p "ADMIN" (by simp) hp hrole).2 (by decide)
  · intro hR
    subst hR
    refine ⟨rfl, ?_⟩
    have : App.allowedRolesOf "/doctor/dashboard" = some ["DOCTOR", "ADMIN"] := by decide
    simp only [App.guard, this, Option.some.injEq]
    exact (protectedRoute_role_iff ["DOCTOR", "ADMIN"] p "DOCTOR" (by simp) hp hrole).2
      (by decide)
  · intro hR
    subst hR
    refine ⟨rfl, ?_⟩
    have : App.allowedRolesOf "/patient/dashboard" = some ["PATIENT", "ADMIN"] := by decide
    simp only [App.guard, this, Option.some.injEq]
    exact (protectedRoute_role_iff ["PATIENT", "ADMIN"] p "PATIENT" (by simp) hp hrole).2
      (by decide)

/-- Witness of C15: the doctor payload lands on `/doctor/dashboard`. -/
theorem login_lands_on_dashboard_witness :
    (Login.handleSubmit ⟨.null, false, emptyStorage⟩ LoginForm.initial
      (.resolved doctorPayload)).form.navigated = some "/doctor/dashboard" :=
  ((login_lands_on_dashboard ⟨.null, false, emptyStorage⟩ LoginForm.initial doctorPayload
    "DOCTOR" rfl rfl rfl).2.2.2.1 rfl).1

/-! ## The sidebar -/

theorem optionalRole_eq (user : JSValue) : optionalRole user = user.get "role" := by
  cases user <;> rfl

theorem getMenuItems_unknown (user : JSValue)
    (hA : user.get "role" ≠ some (.string "ADMIN"))
    (hD : user.get "role" ≠ some (.string "DOCTOR"))
    (hP : user.get "role" ≠ some (.string "PATIENT")) :
    Sidebar.getMenuItems user = [] := by
  unfold Sidebar.getMenuItems
  rw [optionalRole_eq]
  split
  · rename_i r hr
    have h1 : r ≠ "ADMIN" := fun h => hA (by rw [hr, h])
    have h2 : r ≠ "DOCTOR" := fun h => hD (by rw [hr, h])
    have h3 : r ≠ "PATIENT" := fun h => hP (by rw [hr, h])
    simp [h1, h2, h3]
  · rfl

theorem getMenuItems_of_role (user : JSValue) (R : String)
    (h : user.get "role" = some (.string R)) :
    Sidebar.getMenuItems user = Sidebar.getMenuItems (.object [("role", .string R)]) := by
  unfold Sidebar.getMenuItems
  rw [optionalRole_eq, optionalRole_eq, h]
  rfl

/-- Claim C16.  The function `getMenuItems` returns a non-empty list for a
user whose role is `ADMIN`, `DOCTOR` or `PATIENT`, and the empty list for a
user with any other role value and for an absent (`null`) user. -/
theorem menu_total :
    (∀ (user : JSValue), ∀ R ∈ ["ADMIN", "DOCTOR", "PATIENT"],
      user.get "role" = some (.string R) → Sidebar.getMenuItems user ≠ []) ∧
    (∀ user : JSValue, user.get "role" ≠ some (.string "ADMIN") →
      user.get "role" ≠ some (.string "DOCTOR") →
      user.get "role" ≠ some (.string "PATIENT") → Sidebar.getMenuItems user = []) ∧
    Sidebar.getMenuItems .null = [] := by
  refine ⟨?_, getMenuItems_unknown, rfl⟩
  intro user R hR hrole
  rw [getMenuItems_of_role user R hrole]
  simp only [List.mem_cons, List.mem_singleton, List.not_mem_nil, or_false] at hR
  rcases hR with h | h | h <;> subst h <;> decide

/-- Witness of C16: a patient has a menu, a nurse has none. -/
theorem menu_total_witness :
    Sidebar.getMenuItems (identityOf "PATIENT") ≠ [] ∧
    Sidebar.getMenuItems (identityOf "NURSE") = [] :=
  ⟨menu_total.1 (identityOf "PATIENT") "PATIENT" (by decide) rfl,
    menu_total.2.1 (identityOf "NURSE") (by simp [identityOf, JSValue.get, lookup])
      (by simp [identityOf, JSValue.get, lookup]) (by simp [identityOf, JSValue.get, lookup])⟩

/-- Claim C17.  The paths of the menu, in order, are the five `/admin` paths
for `ADMIN`, the three `/doctor` paths for `DOCTOR` and the three `/patient`
paths for `PATIENT`, each starting with the dashboard; and the first entry of
every non-empty menu is the dashboard of the role of the user. -/
theorem menu_order :
    (∀ user : JSValue, user.get "role" = some (.string "ADMIN") →
      (Sidebar.getMenuItems user).map MenuItem.path
        = ["/admin/dashboard", "/admin/users", "/admin/patients", "/admin/doctors",
            "/admin/appointments"]) ∧
    (∀ user : JSValue, user.get "role" = some (.string "DOCTOR") →
      (Sidebar.getMenuItems user).map MenuItem.path
        = ["/doctor/dashboard", "/doctor/appointments", "/doctor/patients"]) ∧
    (∀ user : JSValue, user.get "role" = some (.string "PATIENT") →
      (Sidebar.getMenuItems user).map MenuItem.path
        = ["/patient/dashboard", "/patient/book-appointment", "/patient/medical-history"]) ∧
    (∀ (user : JSValue) (item : MenuItem), (Sidebar.getMenuItems user).head? = some item →
      (user.get "role" = some (.string "ADMIN") ∧ item.path = "/admin/dashboard") ∨
      (user.get "role" = some (.string "DOCTOR") ∧ item.path = "/doctor/dashboard") ∨
      (user.get "role" = some (.string "PATIENT") ∧ item.path = "/patient/dashboard")) := by
  refine ⟨?_, ?_, ?_, ?_⟩
  · intro user h
    rw [getMenuItems_of_role user _ h]
    decide
  · intro user h
    rw [getMenuItems_of_role user _ h]
    decide
  · intro user h
    rw [getMenuItems_of_role user _ h]
    decide
  · intro user item hhead
    by_cases hA : user.get "role" = some (.string "ADMIN")
    · left
      rw [getMenuItems_of_role user _ hA] at hhead
      refine ⟨hA, ?_⟩
      have : item = ⟨"/admin/dashboard", "Dashboard", "📊"⟩ := by
        simpa [Sidebar.getMenuItems, optionalRole, JSValue.get, lookup] using hhead.symm
      rw [this]
    · by_cases hD : user.get "role" = some (.string "DOCTOR")
      · right; left
        rw [getMenuItems_of_role user _ hD] at hhead
        refine ⟨hD, ?_⟩
        have : item = ⟨"/doctor/dashboard", "Dashboard", "📊"⟩ := by
          simpa [Sidebar.getMenuItems, optionalRole, JSValue.get, lookup] using hhead.symm
        rw [this]
      · by_cases hP : user.get "role" = some (.string "PATIENT")
        · right; right
          rw [getMenuItems_of_role user _ hP] at hhead
          refine ⟨hP, ?_⟩
          have : item = ⟨"/patient/dashboard", "Dashboard", "📊"⟩ := by
            simpa [Sidebar.getMenuItems, optionalRole, JSValue.get, lookup] using hhead.symm
          rw [this]
        · rw [getMenuItems_unknown user hA hD hP] at hhead
          simp at hhead

/-- Witness of C17: the menu of a doctor. -/
theorem menu_order_witness :
    (Sidebar.getMenuItems (identityOf "DOCTOR")).map MenuItem.path
      = ["/doctor/dashboard", "/doctor/appointments", "/doctor/patients"] :=
  menu_order.2.1 (identityOf "DOCTOR") rfl

/-! ## Concurrent calls of `login` -/

/-- Counterexample to C18: with one call of `login` in flight a second call is
made; both calls return success when they settle, and the second one writes
the user and the storage key over what the first one wrote. -/
theorem duplicate_login_counterexample :
    (Gateway.call (Gateway.call ⟨⟨.null, false, emptyStorage⟩, 0⟩)).inFlight = 2 ∧
    ((Gateway.call (Gateway.call ⟨⟨.null, false, emptyStorage⟩, 0⟩)).settle
      (.resolved (identityOf "ADMIN"))).2.success = true ∧
    ((Gateway.call (Gateway.call ⟨⟨.null, false, emptyStorage⟩, 0⟩)).settle
      (.resolved (identityOf "ADMIN"))).1.auth.user = identityOf "ADMIN" ∧
    ((((Gateway.call (Gateway.call ⟨⟨.null, false, emptyStorage⟩, 0⟩)).settle
      (.resolved (identityOf "ADMIN"))).1).settle (.resolved doctorPayload)).2.success
      = true ∧
    ((((Gateway.call (Gateway.call ⟨⟨.null, false, emptyStorage⟩, 0⟩)).settle
      (.resolved (identityOf "ADMIN"))).1).settle (.resolved doctorPayload)).1.auth.user
      = doctorPayload ∧
    ((((Gateway.call (Gateway.call ⟨⟨.null, false, emptyStorage⟩, 0⟩)).settle
      (.resolved (identityOf "ADMIN"))).1).settle
        (.resolved doctorPayload)).1.auth.localStorage.getItem storageKey
      = some (JSON.stringify doctorPayload) := by
  exact ⟨rfl, rfl, rfl, rfl, rfl, rfl⟩

/-- Claim C18, amended.  The function `login` keeps no record of calls in
flight: a second call made while one is in flight is accepted, each call
whose response is successful returns success and writes the user and the
storage key when it settles, and the call that settles last determines both.
Repeated submissions are held off at the login form: `handleSubmit` sets the
loading flag of the form before it calls `login`, and the submit button is
disabled while that flag is true. -/
theorem duplicate_login_not_rejected (g : Gateway) (p q : JSValue)
    (hp : truthy? (p.get "success") = true) (hq : truthy? (q.get "success") = true) :
    (g.call.call.settle (.resolved p)).2.success = true ∧
    (g.call.call.settle (.resolved p)).1.auth.user = p ∧
    (g.call.call.settle (.resolved p)).1.auth.localStorage.getItem storageKey
      = some (JSON.stringify p) ∧
    (g.call.call.settle (.resolved p)).1.inFlight = g.inFlight + 1 ∧
    ((g.call.call.settle (.resolved p)).1.settle (.resolved q)).2.success = true ∧
    ((g.call.call.settle (.resolved p)).1.settle (.resolved q)).1.auth.user = q ∧
    ((g.call.call.settle (.resolved p)).1.settle
      (.resolved q)).1.auth.localStorage.getItem storageKey = some (JSON.stringify q) ∧
    (∀ form : LoginForm, Login.submitDisabled (Login.submitStart form) = true) := by
  simp only [Gateway.settle, Gateway.call, login_truthy _ _ hp, login_truthy _ _ hq]
  simp [Storage.getItem, Storage.setItem, Login.submitDisabled, Login.submitStart]

/-- Witness of C18 amended: an admin response, then a doctor response. -/
theorem duplicate_login_not_rejected_witness :
    (((Gateway.call (Gateway.call ⟨⟨.null, false, emptyStorage⟩, 0⟩)).settle
      (.resolved (identityOf "ADMIN"))).1.settle (.resolved doctorPayload)).1.auth.user
      = doctorPayload :=
  (duplicate_login_not_rejected ⟨⟨.null, false, emptyStorage⟩, 0⟩ (identityOf "ADMIN")
    doctorPayload rfl rfl).2.2.2.2.2.1

/-! ## The storage key -/

theorem startup_storage (st st' : AuthState)
    (h : AuthProvider.startupEffect st = .ok st') : st'.localStorage = st.localStorage := by
  unfold AuthProvider.startupEffect at h
  split at h
  · cases h; rfl
  · split at h
    · split at h
      · cases h
      · cases h; rfl
    · cases h; rfl

theorem login_storage_frame (st : AuthState) (post : Settled) (k : String)
    (hk : k ≠ storageKey) :
    (AuthProvider.login st post).1.localStorage.getItem k = st.localStorage.getItem k := by
  cases post with
  | rejected => rw [login_rejected]
  | resolved p =>
    cases ht : truthy? (p.get "success") with
    | false => rw [(login_falsy st p ht).1]
    | true =>
      rw [login_truthy st p ht]
      simp [Storage.getItem, Storage.setItem, hk]

theorem handleSubmit_auth (st : AuthState) (form : LoginForm) (post : Settled) :
    (Login.handleSubmit st form post).auth = (AuthProvider.login st post).1 := by
  unfold Login.handleSubmit Login.submitResume
  split
  · split
    · rfl
    · split <;> rfl
  · rfl

/-- Claim C19.  The key of the persisted state is `healthcare_user`.  The
startup effect leaves the whole store as it is and its outcome depends on the
store only through that key; `login` and `logout` leave every other key as it
is, `login` writing that key on success and `logout` removing it; and
`handleSubmit` leaves every other key as it is and reads back that key only. -/
theorem single_storage_key :
    storageKey = "healthcare_user" ∧
    (∀ st st' : AuthState, AuthProvider.startupEffect st = .ok st' →
      st'.localStorage = st.localStorage) ∧
    (∀ st₁ st₂ : AuthState, st₁.user = st₂.user →
      st₁.localStorage.getItem storageKey = st₂.localStorage.getItem storageKey →
      Except.map (fun s : AuthState => (s.user, s.loading)) (AuthProvider.startupEffect st₁)
        = Except.map (fun s : AuthState => (s.user, s.loading))
            (AuthProvider.startupEffect st₂)) ∧
    (∀ (st : AuthState) (post : Settled) (k : String), k ≠ storageKey →
      (AuthProvider.login st post).1.localStorage.getItem k = st.localStorage.getItem k) ∧
    (∀ (st : AuthState) (p : JSValue), truthy? (p.get "success") = true →
      (AuthProvider.login st (.resolved p)).1.localStorage.getItem storageKey
        = some (JSON.stringify p)) ∧
    (∀ (st : AuthState) (post : Settled) (k : String), k ≠ storageKey →
      (AuthProvider.logout st post).1.localStorage.getItem k = st.localStorage.getItem k) ∧
    (∀ (st : AuthState) (post : Settled),
      (AuthProvider.logout st post).1.localStorage.getItem storageKey = none) ∧
    (∀ (st : AuthState) (form : LoginForm) (post : Settled) (k : String), k ≠ storageKey →
      (Login.handleSubmit st form post).auth.localStorage.getItem k
        = st.localStorage.getItem k) ∧
    (∀ store₁ store₂ : Storage, store₁.getItem storageKey = store₂.getItem storageKey →
      Login.readBack store₁ = Login.readBack store₂) := by
  refine ⟨rfl, startup_storage, ?_, login_storage_frame, ?_, ?_, ?_, ?_, ?_⟩
  · intro st₁ st₂ hu hk
    unfold AuthProvider.startupEffect
    rw [hk, hu]
    split
    · rfl
    · split
      · split <;> rfl
      · rfl
  · intro st p ht
    rw [login_truthy st p ht]
    simp [Storage.getItem, Storage.setItem]
  · intro st post k hk
    simp [AuthProvider.logout, Storage.getItem, Storage.removeItem, hk]
  · intro st post
    simp [AuthProvider.logout, Storage.getItem, Storage.removeItem]
  · intro st form post k hk
    rw [handleSubmit_auth]
    exact login_storage_frame st post k hk
  · intro store₁ store₂ h
    unfold Login.readBack
    rw [h]

/-- Witness of C19: a successful login leaves the key `theme` as it was. -/
theorem single_storage_key_witness :
    (AuthProvider.login (AuthState.fresh (emptyStorage.setItem "theme" "dark"))
      (.resolved doctorPayload)).1.localStorage.getItem "theme" = some "dark" :=
  single_storage_key.2.2.2.1 (AuthState.fresh (emptyStorage.setItem "theme" "dark"))
    (.resolved doctorPayload) "theme" (by decide)

/-! ## The role of the user -/

/-- Counterexample to C20: after the startup effect, a login whose response
has role `NURSE` leaves a present user whose role is none of the three; and
so does the startup effect alone over a store that holds such an identity. -/
theorem role_invariant_counterexample :
    (AuthProvider.run (AuthState.fresh emptyStorage)
      [.startup, .login (.resolved (identityOf "NURSE"))]).user.truthy = true ∧
    knownRole ((AuthProvider.run (AuthState.fresh emptyStorage)
      [.startup, .login (.resolved (identityOf "NURSE"))]).user.get "role") = false ∧
    (AuthProvider.run
      (AuthState.fresh (emptyStorage.setItem storageKey "\x7b\"role\":\"NURSE\"\x7d"))
      [.startup]).user.truthy = true ∧
    knownRole ((AuthProvider.run
      (AuthState.fresh (emptyStorage.setItem storageKey "\x7b\"role\":\"NURSE\"\x7d"))
      [.startup]).user.get "role") = false := by
  exact ⟨rfl, rfl, rfl, rfl⟩

theorem startup_roleInvariant (st st' : AuthState) (hinv : RoleInvariant st)
    (h : AuthProvider.startupEffect st = .ok st') : RoleInvariant st' := by
  have hstore := startup_storage st st' h
  refine ⟨?_, by rw [hstore]; exact hinv.2⟩
  unfold AuthProvider.startupEffect at h
  split at h
  · cases h
    exact hinv.1
  · rename_i savedUser hsaved
    split at h
    · split at h
      · cases h
      · rename_i v hv
        cases h
        exact fun hv' => hinv.2 savedUser v hsaved hv hv'
    · cases h
      exact hinv.1

theorem login_roleInvariant (st : AuthState) (post : Settled) (hinv : RoleInvariant st)
    (hpost : ∀ p : JSValue, post = .resolved p → truthy? (p.get "success") = true →
      knownRole (p.get "role") = true) :
    RoleInvariant (AuthProvider.login st post).1 := by
  cases post with
  | rejected => rw [login_rejected]; exact hinv
  | resolved p =>
    cases ht : truthy? (p.get "success") with
    | false => rw [(login_falsy st p ht).1]; exact hinv
    | true =>
      rw [login_truthy st p ht]
      have hk := hpost p rfl ht
      refine ⟨fun _ => hk, ?_⟩
      intro s v hs hv _
      have hs' : JSON.stringify p = s := by
        simpa [Storage.getItem, Storage.setItem] using hs
      rw [← hs', JSON.parse_stringify] at hv
      cases hv
      exact hk

theorem logout_roleInvariant (st : AuthState) (post : Settled) :
    RoleInvariant (AuthProvider.logout st post).1 := by
  refine ⟨?_, ?_⟩
  · intro h
    simp [AuthProvider.logout, JSValue.truthy] at h
  · intro s v hs
    simp [AuthProvider.logout, Storage.getItem, Storage.removeItem] at hs

theorem run_roleInvariant (events : List Event) :
    ∀ st : AuthState, RoleInvariant st →
      (∀ p : JSValue, Event.login (.resolved p) ∈ events →
        truthy? (p.get "success") = true → knownRole (p.get "role") = true) →
      RoleInvariant (AuthProvider.run st events) := by
  induction events with
  | nil => intro st h _; exact h
  | cons e es ih =>
    intro st hinv hresp
    have hstep : RoleInvariant (AuthProvider.step st e) := by
      cases e with
      | startup =>
        unfold AuthProvider.step
        cases hs : AuthProvider.startupEffect st with
        | error err => exact hinv
        | ok st' => exact startup_roleInvariant st st' hinv hs
      | login post =>
        refine login_roleInvariant st post hinv ?_
        intro p hp ht
        exact hresp p (by rw [hp]; exact List.mem_cons_self _ _) ht
      | logout post => exact logout_roleInvariant st post
    exact ih (AuthProvider.step st e) hstep
      (fun p hp ht => hresp p (List.mem_cons_of_mem _ hp) ht)

/-- Claim C20, amended.  The code never checks the role: a present user is the
last successful login response, or the value the text under the storage key
parsed to at startup.  Provided that every login response with a truthy
`success` has a role among `ADMIN`, `DOCTOR`, `PATIENT`, and that the text
initially under the storage key does not parse to a present identity with
another role, a present user in any state reached from the initial state by
startup effects, logins and logouts has a role among the three. -/
theorem role_invariant_of_trusted_inputs (store : Storage) (events : List Event)
    (hslot : ∀ (s : String) (v : JSValue), store.getItem storageKey = some s →
      JSON.parse s = some v → v.truthy = true → knownRole (v.get "role") = true)
    (hresp : ∀ p : JSValue, Event.login (.resolved p) ∈ events →
      truthy? (p.get "success") = true → knownRole (p.get "role") = true) :
    (AuthProvider.run (AuthState.fresh store) events).user.truthy = true →
      knownRole ((AuthProvider.run (AuthState.fresh store) events).user.get "role") = true := by
  have hinit : RoleInvariant (AuthState.fresh store) := by
    refine ⟨?_, hslot⟩
    intro h
    simp [AuthState.fresh, JSValue.truthy] at h
  exact (run_roleInvariant events (AuthState.fresh store) hinit hresp).1

/-- Witness of C20 amended: startup on the empty store, then a doctor logs in. -/
theorem role_invariant_of_trusted_inputs_witness :
    knownRole ((AuthProvider.run (AuthState.fresh emptyStorage)
      [.startup, .login (.resolved doctorPayload)]).user.get "role") = true :=
  role_invariant_of_trusted_inputs emptyStorage [.startup, .login (.resolved doctorPayload)]
    (by intro s v hs; simp [emptyStorage, Storage.getItem] at hs)
    (by
      intro p hp _
      simp only [List.mem_cons, List.mem_singleton, List.not_mem_nil, or_false,
        reduceCtorEq, false_or, Event.login.injEq, Settled.resolved.injEq] at hp
      rw [hp]
      rfl)
    rfl

/-! ## Failed logins on the form -/

theorem handleSubmit_failure (st : AuthState) (form : LoginForm) (post : Settled)
    (hfail : (AuthProvider.login st post).2.success = false) :
    Login.handleSubmit st form post =
      ⟨(AuthProvider.login st post).1,
        ⟨orFallback (AuthProvider.login st post).2.message
            "Login failed. Please check your credentials.", false, form.navigated⟩,
        none⟩ := by
  unfold Login.handleSubmit Login.submitResume
  simp [hfail, Login.submitStart]

/-- Claim C21.  For every failed login whose result carries a string message
or none: `handleSubmit` ends without an error, the session is unchanged, the
form has not navigated, its loading flag is false, and its error text is the
message of the result when that is a non-empty string and
`Login failed. Please check your credentials.` when the message is missing or
empty; in each case the error text is a non-empty string. -/
theorem failed_login_surfaced (st : AuthState) (form : LoginForm) (post : Settled)
    (hfail : (AuthProvider.login st post).2.success = false) :
    (Login.handleSubmit st form post).thrown = none ∧
    (Login.handleSubmit st form post).auth = st ∧
    (Login.handleSubmit st form post).form.navigated = form.navigated ∧
    (Login.handleSubmit st form post).form.loading = false ∧
    (∀ m : String, (AuthProvider.login st post).2.message = some (.string m) → m ≠ "" →
      (Login.handleSubmit st form post).form.error = .string m) ∧
    (((AuthProvider.login st post).2.message = none ∨
        (AuthProvider.login st post).2.message = some (.string "")) →
      (Login.handleSubmit st form post).form.error
        = .string "Login failed. Please check your credentials.") ∧
    (((AuthProvider.login st post).2.message = none ∨
        ∃ m : String, (AuthProvider.login st post).2.message = some (.string m)) →
      ∃ text : String, (Login.handleSubmit st form post).form.error = .string text ∧
        text ≠ "") := by
  have hst : (AuthProvider.login st post).1 = st := by
    cases post with
    | rejected => rw [login_rejected]
    | resolved p =>
      cases ht : truthy? (p.get "success") with
      | false => exact (login_falsy st p ht).1
      | true =>
        rw [login_truthy st p ht] at hfail
        simp at hfail
  rw [handleSubmit_failure st form post hfail]
  refine ⟨rfl, hst, rfl, rfl, ?_, ?_, ?_⟩
  · intro m hm hne
    simp [orFallback, hm, JSValue.truthy, hne]
  · intro h
    rcases h with h | h <;> simp [orFallback, h, JSValue.truthy]
  · intro h
    rcases h with h | ⟨m, h⟩
    · exact ⟨"Login failed. Please check your credentials.", by simp [orFallback, h],
        by decide⟩
    · by_cases hm : m = ""
      · exact ⟨"Login failed. Please check your credentials.",
          by simp [orFallback, h, hm, JSValue.truthy], by decide⟩
      · exact ⟨m, by simp [orFallback, h, hm, JSValue.truthy], hm⟩

/-- Witness of C21: the refused login shows `Invalid credentials`. -/
theorem failed_login_surfaced_witness :
    (Login.handleSubmit (AuthState.fresh emptyStorage) LoginForm.initial
      (.resolved refusedPayload)).form.error = .string "Invalid credentials" :=
  (failed_login_surfaced (AuthState.fresh emptyStorage) LoginForm.initial
    (.resolved refusedPayload) rfl).2.2.2.2.1 "Invalid credentials" rfl (by decide)

/-! ## Redirects of the guard on the declared routes -/

theorem allowedRolesOf_known (path : String) (roles : List String)
    (h : App.allowedRolesOf path = some roles) :
    ∀ r ∈ roles, r = "ADMIN" ∨ r = "DOCTOR" ∨ r = "PATIENT" := by
  unfold App.allowedRolesOf at h
  split at h
  · rename_i allowedRoles page hl
    cases h
    have hmem := lookup_mem path _ App.routes hl
    have hall : ∀ e ∈ App.routes, ∀ rs pg, e.2 = RouteElement.guarded rs pg →
        ∀ r ∈ rs, r = "ADMIN" ∨ r = "DOCTOR" ∨ r = "PATIENT" := by
      simp [App.routes]
    exact hall _ hmem roles page rfl
  · cases h

theorem guard_of_roles (path : String) (roles : List String) (user : JSValue) (loading : Bool)
    (h : App.allowedRolesOf path = some roles) :
    App.guard path user loading = some (ProtectedRoute roles user loading) := by
  simp [App.guard, h]

/-- Claim C25.  For a user of role `R` among `ADMIN`, `DOCTOR`, `PATIENT`
(loading false) and every guarded route of `App.js`, the guard either renders
the page or redirects to the dashboard of `R`, a guarded route whose
`allowedRoles` contains `R` and on which the guard renders for that user: a
redirect is followed by a rendered page. -/
theorem guard_redirects_settle (path : String) (roles : List String) (user : JSValue)
    (R : String) (hroute : App.allowedRolesOf path = some roles)
    (hR : R = "ADMIN" ∨ R = "DOCTOR" ∨ R = "PATIENT")
    (huser : user.truthy = true) (hrole : user.get "role" = some (.string R)) :
    (App.allowedRolesOf "/admin/dashboard" = some ["ADMIN"] ∧
      App.allowedRolesOf "/doctor/dashboard" = some ["DOCTOR", "ADMIN"] ∧
      App.allowedRolesOf "/patient/dashboard" = some ["PATIENT", "ADMIN"]) ∧
    (App.guard path user false = some .children ∨
      ∃ target : String, App.guard path user false = some (.navigate target) ∧
        App.guard target user false = some .children) := by
  refine ⟨⟨by decide, by decide, by decide⟩, ?_⟩
  have hne := allowedRolesOf_nonempty path roles hroute
  rw [guard_of_roles path roles user false hroute]
  by_cases hmem : R ∈ roles
  · left
    rw [(protectedRoute_role_iff roles user R hne huser hrole).2 hmem]
  · right
    rw [protectedRoute_mismatch roles user R huser hrole hne hmem]
    rcases hR with h | h | h
    · subst h
      refine ⟨"/admin/dashboard", rfl, ?_⟩
      rw [guard_of_roles "/admin/dashboard" ["ADMIN"] user false (by decide)]
      rw [(protectedRoute_role_iff ["ADMIN"] user "ADMIN" (by simp) huser hrole).2 (by decide)]
    · subst h
      refine ⟨"/doctor/dashboard", rfl, ?_⟩
      rw [guard_of_roles "/doctor/dashboard" ["DOCTOR", "ADMIN"] user false (by decide)]
      rw [(protectedRoute_role_iff ["DOCTOR", "ADMIN"] user "DOCTOR" (by simp) huser hrole).2
        (by decide)]
    · subst h
      refine ⟨"/patient/dashboard", rfl, ?_⟩
      rw [guard_of_roles "/patient/dashboard" ["PATIENT", "ADMIN"] user false (by decide)]
      rw [(protectedRoute_role_iff ["PATIENT", "ADMIN"] user "PATIENT" (by simp) huser
        hrole).2 (by decide)]

/-- Witness of C25: a patient on `/admin/users` is sent to `/patient/dashboard`,
which renders. -/
theorem guard_redirects_settle_witness :
    App.guard "/admin/users" (identityOf "PATIENT") false = some .children ∨
      ∃ target : String,
        App.guard "/admin/users" (identityOf "PATIENT") false = some (.navigate target) ∧
        App.guard target (identityOf "PATIENT") false = some .children :=
  (guard_redirects_settle "/admin/users" ["ADMIN"] (identityOf "PATIENT") "PATIENT"
    (by decide) (Or.inr (Or.inr rfl)) rfl rfl).2

/-- Claim C26.  On each guarded route of `App.js`, for a user whose role is a
string other than `ADMIN`, `DOCTOR`, `PATIENT` (loading false), the guard
redirects to `/login`; and after a successful login with such a role
`handleSubmit` navigates to `/admin/dashboard`, a guarded route. -/
theorem unknown_role_on_declared_routes (user : JSValue) (r : String)
    (huser : user.truthy = true) (hrole : user.get "role" = some (.string r))
    (hA : r ≠ "ADMIN") (hD : r ≠ "DOCTOR") (hP : r ≠ "PATIENT") :
    (∀ (path : String) (roles : List String), App.allowedRolesOf path = some roles →
      App.guard path user false = some (.navigate "/login")) ∧
    (∀ (st : AuthState) (form : LoginForm), truthy? (user.get "success") = true →
      (Login.handleSubmit st form (.resolved user)).form.navigated
        = some "/admin/dashboard") ∧
    App.guard "/admin/dashboard" user false = some (.navigate "/login") := by
  have key : ∀ (path : String) (roles : List String), App.allowedRolesOf path = some roles →
      App.guard path user false = some (.navigate "/login") := by
    intro path roles hroute
    have hne := allowedRolesOf_nonempty path roles hroute
    have hnot : r ∉ roles := by
      intro hmem
      rcases allowedRolesOf_known path roles hroute r hmem with h | h | h
      · exact hA h
      · exact hD h
      · exact hP h
    rw [guard_of_roles path roles user false hroute,
      protectedRoute_mismatch roles user r huser hrole hne hnot]
    simp [roleRedirect, hA, hD, hP]
  refine ⟨key, ?_, key "/admin/dashboard" ["ADMIN"] (by decide)⟩
  intro st form hs
  rw [handleSubmit_success st form user hs, hrole]
  simp [Login.dashboardOf, hA, hD, hP]

/-- Witness of C26: a nurse on `/doctor/patients`. -/
theorem unknown_role_on_declared_routes_witness :
    App.guard "/doctor/patients" (identityOf "NURSE") false = some (.navigate "/login") :=
  (unknown_role_on_declared_routes (identityOf "NURSE") "NURSE" rfl rfl (by decide)
    (by decide) (by decide)).1 "/doctor/patients" ["DOCTOR", "ADMIN"] (by decide)

/-! ## The sidebar against the route table -/

theorem menu_routes_of_role :
    ∀ R ∈ ["ADMIN", "DOCTOR", "PATIENT"],
      (∀ item ∈ Sidebar.getMenuItems (.object [("role", .string R)]),
        ∃ roles, App.allowedRolesOf item.path = some roles ∧ R ∈ roles) ∧
      (∀ a ∈ Sidebar.getMenuItems (.object [("role", .string R)]),
        ∀ b ∈ Sidebar.getMenuItems (.object [("role", .string R)]),
          a.path = b.path → a = b) ∧
      ((Sidebar.getMenuItems (.object [("role", .string R)])).map MenuItem.path).Nodup := by
  intro R hR
  simp only [List.mem_cons, List.mem_singleton, List.not_mem_nil, or_false] at hR
  rcases hR with h | h | h <;> subst h
  · refine ⟨?_, by decide, by decide⟩
    intro item hitem
    refine ⟨["ADMIN"], ?_, by decide⟩
    revert item
    decide
  · refine ⟨?_, by decide, by decide⟩
    intro item hitem
    refine ⟨["DOCTOR", "ADMIN"], ?_, by decide⟩
    revert item
    decide
  · refine ⟨?_, by decide, by decide⟩
    intro item hitem
    refine ⟨["PATIENT", "ADMIN"], ?_, by decide⟩
    revert item
    decide

/-- Claim C27.  For a user of role `R` among `ADMIN`, `DOCTOR`, `PATIENT`,
every entry of the menu has a path that is a guarded route of `App.js` whose
`allowedRoles` contains `R`, so that the guard renders it for that user; the
paths of the menu are pairwise distinct, and at most one entry is active at
any location. -/
theorem menu_entries_render (user : JSValue) (R : String)
    (hR : R ∈ ["ADMIN", "DOCTOR", "PATIENT"])
    (huser : user.truthy = true) (hrole : user.get "role" = some (.string R)) :
    (∀ item ∈ Sidebar.getMenuItems user,
      (∃ roles, App.allowedRolesOf item.path = some roles ∧ R ∈ roles) ∧
      App.guard item.path user false = some .children) ∧
    ((Sidebar.getMenuItems user).map MenuItem.path).Nodup ∧
    (∀ (location : String), ∀ a ∈ Sidebar.getMenuItems user,
      ∀ b ∈ Sidebar.getMenuItems user,
        Sidebar.isActive location a.path = true → Sidebar.isActive location b.path = true →
        a = b) := by
  have hmenu := getMenuItems_of_role user R hrole
  obtain ⟨h1, h2, h3⟩ := menu_routes_of_role R hR
  rw [hmenu]
  refine ⟨?_, h3, ?_⟩
  · intro item hitem
    obtain ⟨roles, hroute, hmem⟩ := h1 item hitem
    refine ⟨⟨roles, hroute, hmem⟩, ?_⟩
    rw [guard_of_roles item.path roles user false hroute]
    rw [(protectedRoute_role_iff roles user R (allowedRolesOf_nonempty _ _ hroute) huser
      hrole).2 hmem]
  · intro location a ha b hb hact hbct
    have ha' : location = a.path := by simpa [Sidebar.isActive] using hact
    have hb' : location = b.path := by simpa [Sidebar.isActive] using hbct
    exact h2 a ha b hb (ha'.symm.trans hb')

/-- Witness of C27: the entry `Patient Records` of the menu of a doctor. -/
theorem menu_entries_render_witness :
    App.guard "/doctor/patients" (identityOf "DOCTOR") false = some .children :=
  ((menu_entries_render (identityOf "DOCTOR") "DOCTOR" (by decide) rfl rfl).1
    ⟨"/doctor/patients", "Patient Records", "📋"⟩ (by decide)).2

/-! ## The age of a patient -/

theorem calculateAge_value (offsetMinutes : Int) (today text : CalendarDate) :
    PatientDashboard.calculateAge offsetMinutes today (some text) =
      .number (today.year - (dateOnlyLocal offsetMinutes text).year -
        (if today.month < (dateOnlyLocal offsetMinutes text).month ∨
            (today.month = (dateOnlyLocal offsetMinutes text).month ∧
              today.date < (dateOnlyLocal offsetMinutes text).date)
          then 1 else 0)) := by
  unfold PatientDashboard.calculateAge
  simp only
  generalize dateOnlyLocal offsetMinutes text = birth
  by_cases h : today.month < birth.month ∨ (today.month = birth.month ∧ today.date < birth.date)
  · have h' : (today.month : Int) - birth.month < 0 ∨
        ((today.month : Int) - birth.month = 0 ∧ today.date < birth.date) := by
      rcases h with h | ⟨h1, h2⟩
      · left; omega
      · right; exact ⟨by omega, h2⟩
    rw [if_pos h', if_pos h]
  · have h' : ¬ ((today.month : Int) - birth.month < 0 ∨
        ((today.month : Int) - birth.month = 0 ∧ today.date < birth.date)) := by
      intro hc
      apply h
      rcases hc with hc | ⟨h1, h2⟩
      · left; omega
      · right; exact ⟨by omega, h2⟩
    rw [if_neg h', if_neg h]
    simp

/-- At an offset from UTC that is not negative `calculateAge` returns the age
in completed years: for a birth date on or before today, the largest `n`
whose `n`-th anniversary of the birth date is on or before today. -/
theorem calculateAge_east_of_utc (offsetMinutes : Int) (today birth : CalendarDate)
    (hoff : 0 ≤ offsetMinutes) (hle : birth.onOrBefore today) :
    ∃ n : Int, PatientDashboard.calculateAge offsetMinutes today (some birth) = .number n ∧
      0 ≤ n ∧ (birth.anniversary n).onOrBefore today ∧
      ∀ k : Int, (birth.anniversary k).onOrBefore today → k ≤ n := by
  have hloc : dateOnlyLocal offsetMinutes birth = birth := by
    unfold dateOnlyLocal
    rw [if_neg (by omega)]
  refine ⟨_, calculateAge_value offsetMinutes today birth, ?_, ?_, ?_⟩
  · rw [hloc]
    unfold CalendarDate.onOrBefore at hle
    split <;> omega
  · rw [hloc]
    unfold CalendarDate.onOrBefore CalendarDate.anniversary
    unfold CalendarDate.onOrBefore at hle
    simp only
    split <;> omega
  · intro k hk
    rw [hloc]
    unfold CalendarDate.onOrBefore CalendarDate.anniversary at hk
    simp only at hk
    split <;> omega

theorem newYearLocal_eq_dateOnlyLocal (offsetMinutes year : Int) :
    newYearLocal offsetMinutes year = dateOnlyLocal offsetMinutes ⟨year, 0, 1⟩ := by
  unfold newYearLocal dateOnlyLocal previousDay
  split <;> simp

theorem calculateAge_copies (offsetMinutes : Int) (today : CalendarDate)
    (birthDate : Option CalendarDate) :
    PatientManagement.calculateAge offsetMinutes today birthDate
      = PatientDashboard.calculateAge offsetMinutes today birthDate := rfl

/-- Claim C30, the code at the failing input.  For the birth date
`2000-01-01`, on 31 December 2023 and five hours west of UTC, both copies of
`calculateAge` return 24, because `new Date` reads the date-only text as
midnight UTC, which locally is 31 December 1999.  The birth date is on or
before today, its 23rd anniversary is on or before today and its 24th is not,
so the age in completed years is 23, which is what the code returns at UTC. -/
theorem calculateAge_west_of_utc :
    PatientDashboard.calculateAge (-300) ⟨2023, 11, 31⟩ (some ⟨2000, 0, 1⟩) = .number 24 ∧
    PatientManagement.calculateAge (-300) ⟨2023, 11, 31⟩ (some ⟨2000, 0, 1⟩) = .number 24 ∧
    dateOnlyLocal (-300) ⟨2000, 0, 1⟩ = ⟨1999, 11, 31⟩ ∧
    CalendarDate.onOrBefore ⟨2000, 0, 1⟩ ⟨2023, 11, 31⟩ ∧
    (CalendarDate.anniversary ⟨2000, 0, 1⟩ 23).onOrBefore ⟨2023, 11, 31⟩ ∧
    ¬ (CalendarDate.anniversary ⟨2000, 0, 1⟩ 24).onOrBefore ⟨2023, 11, 31⟩ ∧
    PatientDashboard.calculateAge 0 ⟨2023, 11, 31⟩ (some ⟨2000, 0, 1⟩) = .number 23 := by
  refine ⟨rfl, rfl, by decide, ?_, ?_, ?_, rfl⟩
  · simp [CalendarDate.onOrBefore]
  · simp [CalendarDate.onOrBefore, CalendarDate.anniversary]
  · simp [CalendarDate.onOrBefore, CalendarDate.anniversary]

/-! ## The Year filter of the medical history -/

theorem mem_getUniqueYear (medicalHistory : List MedicalRecord) (year : Int) :
    year ∈ MyMedicalHistory.getUniqueYear medicalHistory ↔
      ∃ record ∈ medicalHistory, record.visit.year = year := by
  unfold MyMedicalHistory.getUniqueYear
  rw [List.mem_insertionSort, List.mem_dedup, List.mem_map]

theorem applyFilters_year (offsetMinutes : Int) (medicalHistory : List MedicalRecord)
    (year : Int) :
    MyMedicalHistory.applyFilters offsetMinutes medicalHistory "" "" (some year) =
      medicalHistory.filter (fun record =>
        decide (record.visit.year = (newYearLocal offsetMinutes year).year) &&
        decide (record.visit.month = (newYearLocal offsetMinutes year).month)) := by
  simp [MyMedicalHistory.applyFilters]

/-- Claim C29, the code at the failing input.  With one record of a visit on
15 June 2023, local time equal to UTC, and the search and doctor filters
empty: the year 2023 is offered by `getUniqueYear`, the record falls in 2023,
and `applyFilters` with the Year filter set to 2023 keeps no record, because
it also compares the month with that of 1 January. -/
theorem year_filter_drops_june :
    (2023 : Int) ∈ MyMedicalHistory.getUniqueYear [juneRecord] ∧
    juneRecord.visit.year = 2023 ∧
    MyMedicalHistory.applyFilters 0 [juneRecord] "" "" (some 2023) = [] := by
  decide

/-! ## Upcoming and recent appointments -/

theorem mem_upcoming (now : Int) (appointments : List Appointment) (apt : Appointment) :
    apt ∈ PatientDashboard.upcoming now appointments ↔
      apt ∈ appointments ∧ apt.time > now ∧ apt.status = "SCHEDULED" := by
  unfold PatientDashboard.upcoming
  rw [List.mem_insertionSort, List.mem_filter]
  simp

theorem mem_recent (now : Int) (appointments : List Appointment) (apt : Appointment) :
    apt ∈ PatientDashboard.recent now appointments ↔
      apt ∈ appointments ∧ (apt.time ≤ now ∨ apt.status = "COMPLETED") := by
  unfold PatientDashboard.recent
  rw [List.mem_insertionSort, List.mem_filter]
  simp

theorem sorted_upcoming (now : Int) (appointments : List Appointment) :
    List.Sorted (fun a b : Appointment => a.time ≤ b.time)
      (PatientDashboard.upcoming now appointments) := by
  haveI : IsTotal Appointment (fun a b => a.time ≤ b.time) := ⟨fun a b => le_total a.time b.time⟩
  haveI : IsTrans Appointment (fun a b => a.time ≤ b.time) := ⟨fun _ _ _ h1 h2 => le_trans h1 h2⟩
  exact List.sorted_insertionSort _ _

theorem sorted_recent (now : Int) (appointments : List Appointment) :
    List.Sorted (fun a b : Appointment => b.time ≤ a.time)
      (PatientDashboard.recent now appointments) := by
  haveI : IsTotal Appointment (fun a b => b.time ≤ a.time) := ⟨fun a b => le_total b.time a.time⟩
  haveI : IsTrans Appointment (fun a b => b.time ≤ a.time) := ⟨fun _ _ _ h1 h2 => le_trans h2 h1⟩
  exact List.sorted_insertionSort _ _

/-- Counterexample to C28: an appointment in the future whose status is
`CANCELLED` is neither in `upcoming` nor in `recent`. -/
theorem appointment_split_counterexample :
    (⟨1, 200, "CANCELLED"⟩ : Appointment) ∈ [(⟨1, 200, "CANCELLED"⟩ : Appointment)] ∧
    (⟨1, 200, "CANCELLED"⟩ : Appointment) ∉
      PatientDashboard.upcoming 100 [⟨1, 200, "CANCELLED"⟩] ∧
    (⟨1, 200, "CANCELLED"⟩ : Appointment) ∉
      PatientDashboard.recent 100 [⟨1, 200, "CANCELLED"⟩] := by
  decide

/-- Claim C28, amended.  Before the lists are cut to five entries, `upcoming`
holds the appointments with date after now and status `SCHEDULED`, in
ascending order of date, and `recent` holds those with date not after now or
status `COMPLETED`, in descending order of date.  No appointment is in both
lists; an appointment is in neither exactly when its date is after now and
its status is neither `SCHEDULED` nor `COMPLETED`. -/
theorem appointment_split (now : Int) (appointments : List Appointment) :
    (∀ apt : Appointment, apt ∈ PatientDashboard.upcoming now appointments ↔
      apt ∈ appointments ∧ apt.time > now ∧ apt.status = "SCHEDULED") ∧
    (∀ apt : Appointment, apt ∈ PatientDashboard.recent now appointments ↔
      apt ∈ appointments ∧ (apt.time ≤ now ∨ apt.status = "COMPLETED")) ∧
    (∀ apt : Appointment, ¬ (apt ∈ PatientDashboard.upcoming now appointments ∧
      apt ∈ PatientDashboard.recent now appointments)) ∧
    (∀ apt ∈ appointments,
      (apt ∉ PatientDashboard.upcoming now appointments ∧
        apt ∉ PatientDashboard.recent now appointments) ↔
      (apt.time > now ∧ apt.status ≠ "SCHEDULED" ∧ apt.status ≠ "COMPLETED")) ∧
    List.Sorted (fun a b : Appointment => a.time ≤ b.time)
      (PatientDashboard.upcoming now appointments) ∧
    List.Sorted (fun a b : Appointment => b.time ≤ a.time)
      (PatientDashboard.recent now appointments) := by
  refine ⟨mem_upcoming now appointments, mem_recent now appointments, ?_, ?_,
    sorted_upcoming now appointments, sorted_recent now appointments⟩
  · intro apt h
    rw [mem_upcoming, mem_recent] at h
    obtain ⟨⟨_, h1, h2⟩, _, h3⟩ := h
    rcases h3 with h3 | h3
    · omega
    · rw [h2] at h3
      exact absurd h3 (by decide)
  · intro apt hmem
    rw [mem_upcoming, mem_recent]
    constructor
    · intro h
      obtain ⟨h1, h2⟩ := h
      have ht : apt.time > now := by
        by_contra hc
        exact h2 ⟨hmem, Or.inl (by omega)⟩
      exact ⟨ht, fun hs => h1 ⟨hmem, ht, hs⟩, fun hs => h2 ⟨hmem, Or.inr hs⟩⟩
    · intro h
      obtain ⟨h1, h2, h3⟩ := h
      refine ⟨fun hc => h2 hc.2.2, fun hc => ?_⟩
      rcases hc.2 with hc | hc
      · omega
      · exact h3 hc

/-- Witness of C28 amended: a past visit and a scheduled one. -/
theorem appointment_split_witness :
    (⟨2, 300, "SCHEDULED"⟩ : Appointment)
      ∈ PatientDashboard.upcoming 100 [⟨1, 50, "COMPLETED"⟩, ⟨2, 300, "SCHEDULED"⟩] :=
  ((appointment_split 100 [⟨1, 50, "COMPLETED"⟩, ⟨2, 300, "SCHEDULED"⟩]).1
    ⟨2, 300, "SCHEDULED"⟩).2 ⟨by decide, by decide, rfl⟩

/-! ## The endpoints of the service modules -/

theorem serviceCall_instance (c : ServiceCall) :
    c.endpoint ∈ specEndpoints ∧ c.request.method = c.endpoint.1 ∧
      c.request.path = fillPattern c.endpoint.2 c.pathArgs := by
  cases c <;> refine ⟨by simp only [ServiceCall.endpoint]; decide, rfl, ?_⟩ <;>
    simp [ServiceCall.request, ServiceCall.endpoint, ServiceCall.pathArgs, fillPattern,
      String.append_assoc]

theorem specEndpoints_issued : ∀ e ∈ specEndpoints, ∃ c : ServiceCall, c.endpoint = e := by
  intro e he
  simp only [specEndpoints, List.mem_cons, List.mem_singleton, List.not_mem_nil, or_false] at he
  rcases he with rfl | rfl | rfl | rfl | rfl | rfl | rfl | rfl | rfl | rfl | rfl | rfl | rfl | rfl | rfl | rfl | rfl | rfl | rfl | rfl | rfl | rfl | rfl | rfl | rfl | rfl | rfl | rfl | rfl | rfl | rfl | rfl | rfl | rfl | rfl | rfl | rfl | rfl | rfl | rfl | rfl | rfl | rfl | rfl | rfl | rfl <;>
  first
    | exact ⟨.authService_login none, rfl⟩
    | exact ⟨.authService_logout, rfl⟩
    | exact ⟨.userService_getAllUsers, rfl⟩
    | exact ⟨.userService_getUserById none, rfl⟩
    | exact ⟨.userService_getUsersByRole none, rfl⟩
    | exact ⟨.userService_createUser none, rfl⟩
    | exact ⟨.userService_updateUser none none, rfl⟩
    | exact ⟨.userService_deactivateUser none, rfl⟩
    | exact ⟨.userService_deleteUser none, rfl⟩
    | exact ⟨.patientService_getAllPatients, rfl⟩
    | exact ⟨.patientService_getActivePatients, rfl⟩
    | exact ⟨.patientService_getPatientById none, rfl⟩
    | exact ⟨.patientService_createPatient none, rfl⟩
    | exact ⟨.patientService_updatePatient none none, rfl⟩
    | exact ⟨.patientService_deletePatient none, rfl⟩
    | exact ⟨.patientService_getPatientMedicalHistory none, rfl⟩
    | exact ⟨.doctorService_getAllDoctors, rfl⟩
    | exact ⟨.doctorService_getActiveDoctors, rfl⟩
    | exact ⟨.doctorService_getAvailableDoctors, rfl⟩
    | exact ⟨.doctorService_getDoctorById none, rfl⟩
    | exact ⟨.doctorService_getDoctorsBySpecialization none, rfl⟩
    | exact ⟨.doctorService_createDoctor none, rfl⟩
    | exact ⟨.doctorService_updateDoctor none none, rfl⟩
    | exact ⟨.doctorService_deleteDoctor none, rfl⟩
    | exact ⟨.appointmentService_getAllAppointments, rfl⟩
    | exact ⟨.appointmentService_getTodaysAppointments, rfl⟩
    | exact ⟨.appointmentService_getAppointmentsByPatient none, rfl⟩
    | exact ⟨.appointmentService_getAppointmentsByDoctor none, rfl⟩
    | exact ⟨.appointmentService_getAppointmentsByStatus none, rfl⟩
    | exact ⟨.appointmentService_getAppointmentsByDateRange none none, rfl⟩
    | exact ⟨.appointmentService_createAppointment none, rfl⟩
    | exact ⟨.appointmentService_updateAppointment none none, rfl⟩
    | exact ⟨.appointmentService_updateAppointmentStatus none none, rfl⟩
    | exact ⟨.appointmentService_deleteAppointment none, rfl⟩
    | exact ⟨.medicalRecordService_getAllMedicalRecords, rfl⟩
    | exact ⟨.medicalRecordService_getMedicalRecordById none, rfl⟩
    | exact ⟨.medicalRecordService_getMedicalRecordsByPatient none, rfl⟩
    | exact ⟨.medicalRecordService_getMedicalRecordsByDoctor none, rfl⟩
    | exact ⟨.medicalRecordService_getMedicalRecordByAppointment none, rfl⟩
    | exact ⟨.medicalRecordService_searchByDiagnosis none, rfl⟩
    | exact ⟨.medicalRecordService_createMedicalRecord none, rfl⟩
    | exact ⟨.medicalRecordService_updateMedicalRecord none none, rfl⟩
    | exact ⟨.medicalRecordService_deleteMedicalRecord none, rfl⟩
    | exact ⟨.adminService_getDashboardData, rfl⟩
    | exact ⟨.adminService_getUserStats, rfl⟩
    | exact ⟨.adminService_getAppointmentStats, rfl⟩
    | exact ⟨.adminService_createAdmin none, rfl⟩

/-- Claim C24.  Every function of the seven service modules, for all its
arguments, issues the method of an enumerated endpoint and the path obtained
from the pattern of that endpoint by inserting the texts of its arguments;
every enumerated endpoint is issued by some function; and in particular
`updateAppointmentStatus` and `getAppointmentsByDateRange` issue the stated
requests. -/
theorem services_issue_enumerated :
    (∀ c : ServiceCall, c.endpoint ∈ specEndpoints ∧ c.request.method = c.endpoint.1 ∧
      c.request.path = fillPattern c.endpoint.2 c.pathArgs) ∧
    (∀ e ∈ specEndpoints, ∃ c : ServiceCall, c.endpoint = e) ∧
    (∀ id status : Option JSValue,
      (ServiceCall.appointmentService_updateAppointmentStatus id status).request.method
        = .PUT ∧
      (ServiceCall.appointmentService_updateAppointmentStatus id status).request.path
        = "/api/appointments/" ++ templateText id ++ "/status?status=" ++ templateText status) ∧
    (∀ startDate endDate : Option JSValue,
      (ServiceCall.appointmentService_getAppointmentsByDateRange startDate
        endDate).request.method = .GET ∧
      (ServiceCall.appointmentService_getAppointmentsByDateRange startDate
        endDate).request.path
        = "/api/appointments/date-range?startDate=" ++ templateText startDate ++ "&endDate="
          ++ templateText endDate) :=
  ⟨serviceCall_instance, specEndpoints_issued, fun _ _ => ⟨rfl, rfl⟩, fun _ _ => ⟨rfl, rfl⟩⟩

/-- Witness of C24: the endpoint of the status update is issued, with the
path of appointment 7 and status `COMPLETED`. -/
theorem services_issue_enumerated_witness :
    (∃ c : ServiceCall, c.endpoint
      = (.PUT, [.lit "/api/appointments/", .arg 0, .lit "/status?status=", .arg 1])) ∧
    (ServiceCall.appointmentService_updateAppointmentStatus (some (.number 7))
      (some (.string "COMPLETED"))).request.path = "/api/appointments/7/status?status=COMPLETED" :=
  ⟨services_issue_enumerated.2.1 _ (by decide), by decide⟩

/-! ## Failed mutations in the admin views -/

/-- Claim C22, the code on a failed mutation.  When the create or update call
of `handleSubmit` fails, all four admin views leave every cell as it is (the
modal stays open, the form data and the record being edited are unchanged);
`PatientManagement`, `DoctorManagement` and `AppointmentManagement` show a
message with `alert`, but `UserManagement` shows none.  A failed delete shows
a message in `PatientManagement` only.  In particular, with the modal of
`UserManagement` open for a new user and `createUser` failing, no message has
been shown. -/
theorem failed_mutation_reporting :
    (∀ (v : ViewState) (refetch : Stage JSValue),
      (UserManagement.handleSubmit v .failed refetch).cells = v.cells ∧
      (UserManagement.handleSubmit v .failed refetch).alerts = v.alerts) ∧
    (∀ (v : ViewState) (refetch : Stage JSValue),
      (PatientManagement.handleSubmit v .failed refetch).cells = v.cells ∧
      (PatientManagement.handleSubmit v .failed refetch).alerts
        = v.alerts ++ ["Error saving patient. Please try again."]) ∧
    (∀ (v : ViewState) (refetch : Stage JSValue),
      (DoctorManagement.handleSubmit v .failed refetch).cells = v.cells ∧
      (DoctorManagement.handleSubmit v .failed refetch).alerts
        = v.alerts ++ ["Error saving doctor. Please try again."]) ∧
    (∀ (v : ViewState) (refetch : Stage (JSValue × JSValue × JSValue)),
      (AppointmentManagement.handleSubmit v .failed refetch).cells = v.cells ∧
      (AppointmentManagement.handleSubmit v .failed refetch).alerts
        = v.alerts ++ ["Error saving appointment. Please try again."]) ∧
    (∀ (v : ViewState) (refetch : Stage JSValue),
      (UserManagement.handleDelete v true .failed refetch).alerts = v.alerts) ∧
    (∀ (v : ViewState) (refetch : Stage JSValue),
      (PatientManagement.handleDelete v true .failed refetch).alerts
        = v.alerts ++ ["Error deleting patient. Please try again."]) ∧
    (∀ (v : ViewState) (refetch : Stage JSValue),
      (DoctorManagement.handleDelete v true .failed refetch).alerts = v.alerts) ∧
    (∀ (v : ViewState) (refetch : Stage (JSValue × JSValue × JSValue)),
      (AppointmentManagement.handleDelete v true .failed refetch).alerts = v.alerts) ∧
    (UserManagement.handleSubmit (UserManagement.openAddModal UserManagement.initial)
      .failed .failed).alerts = [] ∧
    (UserManagement.handleSubmit (UserManagement.openAddModal UserManagement.initial)
      .failed .failed).cells "showModal" = .bool true := by
  refine ⟨fun _ _ => ⟨rfl, rfl⟩, fun _ _ => ⟨rfl, rfl⟩, fun _ _ => ⟨rfl, rfl⟩,
    fun _ _ => ⟨rfl, rfl⟩, fun _ _ => rfl, fun _ _ => rfl, fun _ _ => rfl, fun _ _ => rfl,
    rfl, rfl⟩

/-! ## Failed reads in the views -/

theorem endsSoftly_logged (v : ViewState) (message : String) :
    v.endsSoftly ((v.logError message).set "loading" (.bool false)) := by
  refine ⟨by simp [ViewState.set], ?_⟩
  intro name hname
  simp [ViewState.set, ViewState.logError, hname]

theorem errors_logged (v : ViewState) (message : String) :
    ((v.logError message).set "loading" (.bool false)).errors = v.errors ++ [message] := rfl

/-- Claim C23.  When a service call of a fetch rejects, the fetch function
ends normally with the error logged, and the cells it writes from that call
on keep their values, so that on a first load they keep their initial empty
values.  The fetches with a `finally` block end with loading false and every
other cell as before the failing call; in the fetches that first look up the
doctor or patient, that cell keeps the value found when a later call fails.
`handleViewMedicalHistory` leaves every cell as it is (the history stays
closed, loading stays as it was) and shows a message; `fetchData` of
`BookAppointment` leaves loading as it was and sets the error text.  After a
failed first load `UserManagement` renders a table without rows and
`AdminDashboard` renders its two `no-data` lines; after a failed
`handleViewMedicalHistory` the history modal stays hidden. -/
theorem failed_read_soft :
    (∀ v : ViewState, v.endsSoftly (UserManagement.fetchUsers v .failed) ∧
      (UserManagement.fetchUsers v .failed).errors = v.errors ++ ["Error fetching users:"]) ∧
    (∀ v : ViewState, v.endsSoftly (PatientManagement.fetchPatients v .failed)) ∧
    (∀ v : ViewState, v.endsSoftly (DoctorManagement.fetchDoctors v .failed)) ∧
    (∀ v : ViewState, v.endsSoftly (AppointmentManagement.fetchData v .failed)) ∧
    (∀ v : ViewState, v.endsSoftly (AdminDashboard.fetchDashboardData v .failed) ∧
      (AdminDashboard.fetchDashboardData v .failed).errors
        = v.errors ++ ["Error fetching dashboard data:"]) ∧
    (∀ (v : ViewState) (later : Stage JSValue),
      v.endsSoftly (DoctorDashboard.fetchDashboardData v .failed later) ∧
      v.endsSoftly (MyAppointments.fetchData v .failed later) ∧
      v.endsSoftly (PatientRecords.fetchData v .failed later later) ∧
      v.endsSoftly (MyMedicalHistory.fetchData v .failed later) ∧
      v.endsSoftly (PatientDashboard.fetchDashboardData v .failed later)) ∧
    (∀ (v : ViewState) (found : JSValue) (later : Stage JSValue), found.truthy = true →
      (v.set "doctorInfo" found).endsSoftly
        (DoctorDashboard.fetchDashboardData v (.done (some found)) .failed) ∧
      (v.set "doctorInfo" found).endsSoftly
        (MyAppointments.fetchData v (.done (some found)) .failed) ∧
      (v.set "doctorInfo" found).endsSoftly
        (PatientRecords.fetchData v (.done (some found)) .failed later) ∧
      (v.set "patientInfo" found).endsSoftly
        (MyMedicalHistory.fetchData v (.done (some found)) .failed) ∧
      (v.set "patientInfo" found).endsSoftly
        (PatientDashboard.fetchDashboardData v (.done (some found)) .failed)) ∧
    (∀ (v : ViewState) (found records : JSValue), found.truthy = true →
      ((v.set "doctorInfo" found).set "medicalRecords" records).endsSoftly
        (PatientRecords.fetchData v (.done (some found)) (.done records) .failed)) ∧
    (∀ v : ViewState,
      (PatientManagement.handleViewMedicalHistory v .failed).cells = v.cells ∧
      (PatientManagement.handleViewMedicalHistory v .failed).alerts
        = v.alerts ++ ["Error fetching medical history."] ∧
      (PatientManagement.handleViewMedicalHistory v .failed).errors
        = v.errors ++ ["Error fetching medical history:"]) ∧
    (∀ (v : ViewState) (found : Stage (Option JSValue)),
      (BookAppointment.fetchData v .failed found).cells "error"
        = .string "Error loading doctors. Please try again." ∧
      ∀ name : String, name ≠ "error" →
        (BookAppointment.fetchData v .failed found).cells name = v.cells name) ∧
    ((UserManagement.fetchUsers UserManagement.initial .failed).cells "users" = .array [] ∧
      (UserManagement.fetchUsers UserManagement.initial .failed).cells "loading"
        = .bool false) ∧
    ((AdminDashboard.fetchDashboardData AdminDashboard.initial .failed).cells "dashboardData"
        = .null ∧
      (AdminDashboard.fetchDashboardData AdminDashboard.initial .failed).cells
        "todaysAppointments" = .array [] ∧
      (AdminDashboard.fetchDashboardData AdminDashboard.initial .failed).cells "loading"
        = .bool false) ∧
    (UserManagement.usersTable (UserManagement.fetchUsers UserManagement.initial .failed)
        = some (.rows 0) ∧
      AdminDashboard.todaysSection
        (AdminDashboard.fetchDashboardData AdminDashboard.initial .failed) = some .noData ∧
      AdminDashboard.recentPatientsSection
        (AdminDashboard.fetchDashboardData AdminDashboard.initial .failed) = some .noData ∧
      PatientManagement.historySection
        (PatientManagement.handleViewMedicalHistory
          (PatientManagement.fetchPatients PatientManagement.initial (.done (.array [])))
          .failed) = some .hidden) ∧
    ((PatientManagement.handleViewMedicalHistory
        (PatientManagement.fetchPatients PatientManagement.initial (.done (.array [])))
        .failed).cells "medicalHistory" = .array [] ∧
      (PatientManagement.handleViewMedicalHistory
        (PatientManagement.fetchPatients PatientManagement.initial (.done (.array [])))
        .failed).cells "showMedicalHistory" = .bool false ∧
      (PatientManagement.handleViewMedicalHistory
        (PatientManagement.fetchPatients PatientManagement.initial (.done (.array [])))
        .failed).cells "loading" = .bool false) := by
  refine ⟨fun v => ⟨endsSoftly_logged v _, rfl⟩, fun v => endsSoftly_logged v _,
    fun v => endsSoftly_logged v _, fun v => endsSoftly_logged v _,
    fun v => ⟨endsSoftly_logged v _, rfl⟩, ?_, ?_, ?_, fun v => ⟨rfl, rfl, rfl⟩, ?_,
    ⟨rfl, rfl⟩, ⟨rfl, rfl, rfl⟩, ⟨rfl, rfl, rfl, rfl⟩, ⟨rfl, rfl, rfl⟩⟩
  · intro v later
    exact ⟨endsSoftly_logged v _, endsSoftly_logged v _, endsSoftly_logged v _,
      endsSoftly_logged v _, endsSoftly_logged v _⟩
  · intro v found later hfound
    have ht : truthy? (some found) = true := hfound
    refine ⟨?_, ?_, ?_, ?_, ?_⟩
    · simp only [DoctorDashboard.fetchDashboardData, ht, if_true, Option.getD_some]
      exact endsSoftly_logged _ _
    · simp only [MyAppointments.fetchData, ht, if_true, Option.getD_some]
      exact endsSoftly_logged _ _
    · simp only [PatientRecords.fetchData, ht, if_true, Option.getD_some]
      exact endsSoftly_logged _ _
    · simp only [MyMedicalHistory.fetchData, ht, if_true, Option.getD_some]
      exact endsSoftly_logged _ _
    · simp only [PatientDashboard.fetchDashboardData, ht, if_true, Option.getD_some]
      exact endsSoftly_logged _ _
  · intro v found records hfound
    have ht : truthy? (some found) = true := hfound
    simp only [PatientRecords.fetchData, ht, if_true, Option.getD_some]
    exact endsSoftly_logged _ _
  · intro v found
    refine ⟨by simp [BookAppointment.fetchData, ViewState.set], ?_⟩
    intro name hname
    simp [BookAppointment.fetchData, ViewState.set, ViewState.logError, hname]

/-- Witness of C23: `PatientDashboard` finds the patient and then fails to
fetch the appointments. -/
theorem failed_read_soft_witness :
    (PatientDashboard.initial.set "patientInfo" (identityOf "PATIENT")).endsSoftly
      (PatientDashboard.fetchDashboardData PatientDashboard.initial
        (.done (some (identityOf "PATIENT"))) .failed) :=
  (failed_read_soft.2.2.2.2.2.2.1 PatientDashboard.initial (identityOf "PATIENT") .failed
    rfl).2.2.2.2

end HealthCare
